import Mathlib

/-!
Shallow embedding of the document-manipulation MCP server
(src/claude_document_mcp/server.py) and proofs about its tool handlers.

Modelling conventions:
- Python dict/JSON values are the inductive Jval; JSON numbers are modelled
  as integers (floating point is outside the model).
- The filesystem is a flat association list from absolute path strings to
  entries (regular files or directories), plus a trash list for send2trash.
- Python exceptions are the error branch of Except String; each tool body
  runs in a state monad M that threads the filesystem state, and the
  top-level try/except of each handler is the function wrap below, which
  keeps the state reached at the point of the exception (Python semantics).
- Third-party library calls (python-docx, openpyxl, pandas, reportlab,
  docx2pdf, send2trash) are modelled at the granularity the handlers observe:
  documents carry exactly the structure read back by
  read_word_document_structure (table grids, row heights, cell widths,
  paragraph counts), spreadsheets carry sheets of cells, and PDF content is
  opaque to every reader in the repository.
-/

namespace DocMcp

/-- Python-decoded JSON values. JSON numbers are modelled as integers. -/
inductive Jval : Type
  | null
  | b (x : Bool)
  | i (n : Int)
  | s (str : String)
  | arr (xs : List Jval)
  | obj (kvs : List (String × Jval))

/-- Python truthiness of a decoded JSON value. -/
def Jval.truthy : Jval → Bool
  | .null => false
  | .b x => x
  | .i n => n != 0
  | .s str => str != ""
  | .arr xs => !xs.isEmpty
  | .obj kvs => !kvs.isEmpty

/-- Python len(): defined for lists, strings and dicts, TypeError otherwise. -/
def pyLen : Jval → Except String Nat
  | .arr xs => .ok xs.length
  | .s str => .ok str.length
  | .obj kvs => .ok kvs.length
  | _ => .error "TypeError: object has no len()"

/-- Python iteration: lists yield elements, strings yield one-character
strings, dicts yield their keys; other values raise TypeError. -/
def pyIter : Jval → Except String (List Jval)
  | .arr xs => .ok xs
  | .s str => .ok (str.toList.map (fun c => .s (String.mk [c])))
  | .obj kvs => .ok (kvs.map (fun kv => .s kv.1))
  | _ => .error "TypeError: object is not iterable"

/-- dict.get(key) on a decoded JSON object: None when the key is absent. -/
def dictGet (kvs : List (String × Jval)) (key : String) : Option Jval :=
  (kvs.find? (fun kv => kv.1 == key)).map (fun kv => kv.2)

/-- data.get(key, default): AttributeError when the receiver is not a dict. -/
def dataGet (v : Jval) (key : String) (dflt : Jval) : Except String Jval :=
  match v with
  | .obj kvs => .ok ((dictGet kvs key).getD dflt)
  | _ => .error "AttributeError: object has no attribute get"

/-- data.get(key) with default None. -/
def dataGetN (v : Jval) (key : String) : Except String Jval :=
  dataGet v key .null

/-- Value of a list of decimal digits, or none if empty or a non-digit occurs. -/
def digitsVal : List Char → Option Nat
  | [] => none
  | cs =>
    if cs.all Char.isDigit then
      some (cs.foldl (fun acc c => 10 * acc + (c.toNat - 48)) 0)
    else none

/-- Python int(str): optional surrounding whitespace, optional sign, decimal
digits (underscore digit grouping is not modelled). -/
def parseIntStr (str : String) : Option Int :=
  match (str.trim).toList with
  | '-' :: rest => (digitsVal rest).map (fun n => -(n : Int))
  | '+' :: rest => (digitsVal rest).map (fun n => (n : Int))
  | cs => (digitsVal cs).map (fun n => (n : Int))

/-- str.join-style repetition, for Python str * int. -/
def strRepeat (str : String) (n : Nat) : String :=
  String.join (List.replicate n str)

/-- An XML attribute slot as the repository observes it: absent, an integer
value (a decimal string that int() parses), or a string that int() rejects. -/
inductive WAttr : Type
  | absent
  | num (n : Int)
  | bad
deriving Repr, DecidableEq

/-- The w:w attribute that _set_table_grid writes for a grid column: the
Python code stores str(width); reading it back with int() succeeds exactly
when str(width) is a decimal-integer string (JSON integers, and strings
already holding an integer literal). -/
def widthAttr : Jval → WAttr
  | .i n => .num n
  | .s str =>
    match parseIntStr str with
    | some n => .num n
    | none => .bad
  | _ => .bad

/-- int(gc.get(w, 0)): absent attribute defaults to the integer 0, a stored
integer parses back, a non-integer attribute raises ValueError. -/
def readWAttr : WAttr → Except String Int
  | .absent => .ok 0
  | .num n => .ok n
  | .bad => .error "ValueError: invalid literal for int()"

/-- A table cell as observed by the repository: the w:tcW width attribute
(none = no w:tcPr or no w:tcW child) and its number of w:p paragraphs. -/
structure Tc : Type where
  tcW : Option WAttr
  paras : Nat
deriving Repr, DecidableEq

/-- A w:trHeight element: its w:val and w:hRule attributes. -/
structure TrH : Type where
  val : WAttr
  hRule : Option String
deriving Repr, DecidableEq

/-- A table row: its w:trHeight (none = no w:trPr or no w:trHeight) and cells. -/
structure Tr : Type where
  trH : Option TrH
  cells : List Tc
deriving Repr, DecidableEq

/-- A w:tbl element: its w:tblGrid (as the list of w:w attributes of the
w:gridCol children, none when there is no w:tblGrid) and its w:tr rows. -/
structure Tbl : Type where
  grid : Option (List WAttr)
  rows : List Tr
deriving Repr, DecidableEq

/-- A Word document at the granularity the repository reads and writes:
tables, body paragraph texts (doc.paragraphs), and whether the package has
header/footer parts. -/
structure WordDoc : Type where
  tables : List Tbl
  bodyParas : List String
  hasHeaderPart : Bool
  hasFooterPart : Bool
deriving Repr, DecidableEq

/-- Blank Document(): the python-docx default template has no body
paragraphs, no tables and no header or footer parts. -/
def blankDoc : WordDoc :=
  { tables := [], bodyParas := [], hasHeaderPart := false, hasFooterPart := false }

/-- Number of w:p elements under the document body (findall(".//w:p")
descends into table cells). -/
def countParas (d : WordDoc) : Nat :=
  d.bodyParas.length +
    (d.tables.map (fun t =>
      (t.rows.map (fun r => (r.cells.map (fun c => c.paras)).sum)).sum)).sum

/-- An openpyxl worksheet: cells indexed by (row, column), 1-based. -/
structure Ws : Type where
  cells : List ((Nat × Nat) × Jval)

/-- An openpyxl workbook: ordered named sheets. -/
structure Workbook : Type where
  sheets : List (String × Ws)

/-- A pandas DataFrame as built by this repository: from a decoded JSON
value (create_excel_file), from the comma-separated fallback grid
(create_excel_file), or from pd.read_csv (convert_csv_to_excel, where the
first row of the grid is the header row). -/
inductive Df : Type
  | ofJson (v : Jval)
  | ofGrid (g : List (List String))
  | ofCsv (g : List (List String))

/-- PDF file content; nothing in the repository reads PDF files back. -/
inductive PdfContent : Type
  | text (lines : List String)
  | rendered (d : WordDoc)

/-- Regular file contents, by format. Text files cover .txt and .csv;
opening a file with the wrong library raises an exception. -/
inductive FileContent : Type
  | text (str : String)
  | docx (d : WordDoc)
  | xlsx (wb : Workbook)
  | pdf (p : PdfContent)

/-- A filesystem entry: a regular file or a directory. -/
inductive Entry : Type
  | file (c : FileContent)
  | dir

/-- Server-visible state: a flat map from absolute paths to entries, and
the trash (send2trash destination). Paths are modelled as canonical
absolute strings, so os.path.abspath is the identity. -/
structure St : Type where
  fs : List (String × Entry)
  trash : List (String × Entry)

/-- Entry at a path. -/
def St.entryAt (st : St) (p : String) : Option Entry :=
  (st.fs.find? (fun kv => kv.1 == p)).map (fun kv => kv.2)

/-- os.path.exists. -/
def St.exists' (st : St) (p : String) : Bool :=
  (st.entryAt p).isSome

/-- os.path.isdir. -/
def St.isDir (st : St) (p : String) : Bool :=
  match st.entryAt p with
  | some .dir => true
  | _ => false

/-- Whether a regular file is present at a path. -/
def St.isFile (st : St) (p : String) : Bool :=
  match st.entryAt p with
  | some (.file _) => true
  | _ => false

/-- Replace or insert an entry at a path. -/
def fsSet : List (String × Entry) → String → Entry → List (String × Entry)
  | [], p, e => [(p, e)]
  | kv :: rest, p, e =>
    if kv.1 == p then (p, e) :: rest else kv :: fsSet rest p e

/-- Remove the entry at a path. -/
def fsRemove (fs : List (String × Entry)) (p : String) : List (String × Entry) :=
  fs.filter (fun kv => kv.1 != p)

/-- Split a character list on a separator character (str.split semantics
for a one-character separator, over String.data for kernel computability). -/
def splitChars (sep : Char) : List Char → List (List Char)
  | [] => [[]]
  | c :: rest =>
    match splitChars sep rest with
    | [] => [[]]
    | g :: gs => if c = sep then [] :: g :: gs else (c :: g) :: gs

/-- os.path.dirname of an absolute path: everything before the last "/",
or "/" when the last "/" is the leading one. -/
def dirnameOf (p : String) : String :=
  match splitChars '/' p.data with
  | [] => ""
  | [_] => ""
  | parts =>
    let init := parts.dropLast
    if init.all (fun s => s.isEmpty) then "/"
    else String.mk (List.intercalate ['/'] init)

/-- os.path.basename: everything after the last "/". -/
def basenameOf (p : String) : String :=
  match (splitChars '/' p.data).getLast? with
  | some cs => String.mk cs
  | none => p

/-- Direct child test for os.listdir over the flat path map. -/
def isChildPath (parent child : String) : Bool :=
  (parent.data ++ ['/']).isPrefixOf child.data &&
    !(child.data.drop (parent.data.length + 1)).isEmpty &&
    !(child.data.drop (parent.data.length + 1)).contains '/'

/-- os.listdir: names of the direct children of a directory, in map order. -/
def listdir (st : St) (p : String) : List String :=
  (st.fs.filter (fun kv => isChildPath p kv.1)).map
    (fun kv => String.mk (kv.1.data.drop (p.data.length + 1)))

/-- The state-threading exception monad in which tool bodies run: Python
state mutations made before an exception persist. -/
def M (α : Type) : Type := St → Except String α × St

instance : Monad M where
  pure a := fun s => (.ok a, s)
  bind x f := fun s =>
    match x s with
    | (.ok a, s1) => f a s1
    | (.error e, s1) => (.error e, s1)

/-- Raise an exception. -/
def M.fail {α : Type} (e : String) : M α := fun s => (.error e, s)

/-- Read the current state. -/
def M.getSt : M St := fun s => (.ok s, s)

/-- Replace the current state. -/
def M.setSt (s' : St) : M Unit := fun _ => (.ok (), s')

/-- Run a pure fallible computation. -/
def M.liftE {α : Type} (x : Except String α) : M α := fun s =>
  match x with
  | .ok a => (.ok a, s)
  | .error e => (.error e, s)

/-- Structural mapM over Except, used throughout instead of List.mapM so
proofs can unfold it by simple induction. -/
def exMapM {α β : Type} (f : α → Except String β) : List α → Except String (List β)
  | [] => .ok []
  | x :: xs => do
    let y ← f x
    let ys ← exMapM f xs
    pure (y :: ys)

/-- Structural foldlM over Except. -/
def exFoldM {α β : Type} (f : β → α → Except String β) (init : β) : List α → Except String β
  | [] => .ok init
  | x :: xs => do
    let y ← f init x
    exFoldM f y xs

/-- os.makedirs(p, exist_ok=True): raise if a regular file occupies the
path, otherwise ensure a directory entry (ancestors are absorbed by the
flat-map model). -/
def osMakedirs (p : String) : M Unit := do
  let st ← M.getSt
  match st.entryAt p with
  | some (.file _) => M.fail ("FileExistsError: " ++ p)
  | some .dir => pure ()
  | none => M.setSt { st with fs := fsSet st.fs p .dir }

/-- Saving a file (doc.save, df.to_excel, canvas.save): raises when a
directory occupies the target path, otherwise creates or overwrites. -/
def saveFile (p : String) (c : FileContent) : M Unit := do
  let st ← M.getSt
  match st.entryAt p with
  | some .dir => M.fail ("IsADirectoryError: " ++ p)
  | _ => M.setSt { st with fs := fsSet st.fs p (.file c) }

/-- Document(path): python-docx opens only an existing .docx package. -/
def openDocx (p : String) : M WordDoc := do
  let st ← M.getSt
  match st.entryAt p with
  | some (.file (.docx d)) => pure d
  | some (.file _) => M.fail ("PackageNotFoundError: " ++ p)
  | some .dir => M.fail ("IsADirectoryError: " ++ p)
  | none => M.fail ("PackageNotFoundError: " ++ p)

/-- zipfile.ZipFile(path) followed by opening word/document.xml: succeeds
exactly on .docx packages (an .xlsx is a zip but lacks that member). -/
def openZipDocx (p : String) : M WordDoc := do
  let st ← M.getSt
  match st.entryAt p with
  | some (.file (.docx d)) => pure d
  | some (.file (.xlsx _)) => M.fail ("KeyError: word/document.xml not in archive " ++ p)
  | some (.file _) => M.fail ("BadZipFile: " ++ p)
  | some .dir => M.fail ("IsADirectoryError: " ++ p)
  | none => M.fail ("FileNotFoundError: " ++ p)

/-- open(path).read() with utf-8 decoding: text files only. -/
def openTextRead (p : String) : M String := do
  let st ← M.getSt
  match st.entryAt p with
  | some (.file (.text str)) => pure str
  | some (.file _) => M.fail ("UnicodeDecodeError: " ++ p)
  | some .dir => M.fail ("IsADirectoryError: " ++ p)
  | none => M.fail ("FileNotFoundError: " ++ p)

/-- openpyxl.load_workbook. -/
def loadWorkbook (p : String) : M Workbook := do
  let st ← M.getSt
  match st.entryAt p with
  | some (.file (.xlsx wb)) => pure wb
  | some (.file _) => M.fail ("InvalidFileException: " ++ p)
  | some .dir => M.fail ("IsADirectoryError: " ++ p)
  | none => M.fail ("FileNotFoundError: " ++ p)

/-- send2trash: move the entry at a path into the trash. -/
def sendToTrash (p : String) : M Unit := do
  let st ← M.getSt
  match st.entryAt p with
  | some e => M.setSt { fs := fsRemove st.fs p, trash := st.trash ++ [(p, e)] }
  | none => M.fail ("TrashPermissionError: " ++ p)

/-- os.remove: delete a regular file permanently. -/
def osRemove (p : String) : M Unit := do
  let st ← M.getSt
  match st.entryAt p with
  | some (.file _) => M.setSt { st with fs := fsRemove st.fs p }
  | some .dir => M.fail ("IsADirectoryError: " ++ p)
  | none => M.fail ("FileNotFoundError: " ++ p)

/-- os.rmdir: delete a directory (the handler has already checked it is an
empty directory). -/
def osRmdir (p : String) : M Unit := do
  let st ← M.getSt
  match st.entryAt p with
  | some .dir => M.setSt { st with fs := fsRemove st.fs p }
  | some (.file _) => M.fail ("NotADirectoryError: " ++ p)
  | none => M.fail ("FileNotFoundError: " ++ p)

/-- Nominal os.path.getsize (only ever interpolated into messages). -/
def fcSize : FileContent → Nat
  | .text str => str.length
  | .docx d => countParas d
  | .xlsx wb => wb.sheets.length
  | .pdf (.text lines) => lines.length
  | .pdf (.rendered d) => countParas d

/-- Per-row structure report of read_word_document_structure. -/
structure RowInfo : Type where
  row_index : Nat
  height : Option Int
  height_rule : Option String
deriving Repr, DecidableEq

/-- Per-table structure report of read_word_document_structure. -/
structure TableInfo : Type where
  table_index : Nat
  column_widths : List Int
  column_widths_source : Option String
  row_count : Nat
  row_heights : List RowInfo
  has_explicit_row_heights : Bool
  cell_widths : List (List (Option Int))
deriving Repr, DecidableEq

/-- A per-table property difference reported by compare_word_documents. -/
inductive TableDiff : Type
  | columnWidths (d1 d2 : List Int) (s1 s2 : Option String)
  | rowHeightsFlag (d1 d2 : Bool)
  | rowCount (d1 d2 : Nat)
deriving Repr, DecidableEq

/-- An entry of the differences list of compare_word_documents. -/
inductive Diff : Type
  | tablesCount (d1 d2 : Nat)
  | tableDiffs (tableIndex : Nat) (ds : List TableDiff)
deriving Repr, DecidableEq

/-- The result dict of a tool handler. Each Python dict literal in
server.py maps to a value of this structure; keys a handler does not emit
stay none. "filepath": None maps to filepath := none as well — no claim
distinguishes an absent key from an explicit None. -/
structure Res : Type where
  success : Bool
  message : Option String := none
  filepath : Option String := none
  filepath1 : Option String := none
  filepath2 : Option String := none
  dirpath : Option String := none
  deleted : Option Bool := none
  method : Option String := none
  contents : Option (List String) := none
  tables_count : Option Nat := none
  tables : Option (List TableInfo) := none
  paragraphs_count : Option Nat := none
  has_header : Option Bool := none
  has_footer : Option Bool := none
  is_identical : Option Bool := none
  differences : Option (List Diff) := none
  summary : Option String := none
  doc1_error : Option (Option String) := none
  doc2_error : Option (Option String) := none

/-- The try/except wrapping every handler: a normally returned dict passes
through; an exception is mapped to the handler-specific error dict. State
reached before the exception persists. -/
def wrap (onErr : String → Res) (body : M Res) (st : St) : Res × St :=
  match body st with
  | (.ok r, st') => (r, st')
  | (.error e, st') => (onErr e, st')

/-- Hexadecimal digit test for int(s, 16). -/
def isHexDigitChar (c : Char) : Bool :=
  c.isDigit || ('a' ≤ c && c ≤ 'f') || ('A' ≤ c && c ≤ 'F')

/-- Whether int(str[a:b], 16) succeeds: the slice is nonempty and all hex
digits (slices past the end of a short string simply come out shorter). -/
def hexSliceOk (str : String) (a b : Nat) : Bool :=
  let cs := (str.toList.drop a).take (b - a)
  !cs.isEmpty && cs.all isHexDigitChar

/-- The three int(color_hex[0:2], 16) / [2:4] / [4:6] parses applied to a
run colour: TypeError on a non-string, ValueError on non-hex slices. -/
def hexColorBytes : Jval → Except String Unit
  | .s str =>
    if hexSliceOk str 0 2 && hexSliceOk str 2 4 && hexSliceOk str 4 6 then .ok ()
    else .error "ValueError: invalid literal for int() with base 16"
  | _ => .error "TypeError: value is not subscriptable"

/-- _set_cell_shading stores the colour as an XML attribute value, which
lxml accepts only for strings. -/
def shadeColorStr : Jval → Except String String
  | .s str => .ok str
  | _ => .error "TypeError: Argument must be bytes or unicode"

/-- Pt(x): the point-to-EMU arithmetic raises for anything but an integer
(Python bools are integers; floats are outside the model). -/
def pyIntLike : Jval → Except String Int
  | .i n => .ok n
  | .b x => .ok (if x then 1 else 0)
  | _ => .error "TypeError: an integer is required"

/-- The text argument flowing into add_paragraph / add_run / the paragraph
text setter: a falsy value adds no run (empty text), a truthy string is the
text, a truthy non-string raises when assigned to the run. -/
def addParaText (v : Jval) : Except String String :=
  if v.truthy then
    match v with
    | .s str => .ok str
    | _ => .error "TypeError: text must be a string"
  else .ok ""

/-- add_heading validates its level argument first: ValueError outside
0..9; bools are integers; anything else fails the comparison/format. -/
def addHeadingLevel : Jval → Except String Int
  | .i n => if 0 ≤ n ∧ n ≤ 9 then .ok n else .error "ValueError: level must be in range 0-9"
  | .b x => .ok (if x then 1 else 0)
  | _ => .error "TypeError: level must be an integer"

/-- int((height_pt or 0) * 20) inside _set_row_height: Python * repeats
strings and lists, so a string height is repeated 20 times and then parsed. -/
def rowHeightVal : Jval → Except String Int
  | .i n => .ok (20 * n)
  | .b x => .ok (if x then 20 else 0)
  | .s str =>
    match parseIntStr (strRepeat str 20) with
    | some n => .ok n
    | none => .error "ValueError: invalid literal for int()"
  | _ => .error "TypeError: cannot multiply sequence"

/-- Library-defined constants of python-docx table construction that the
source never sets itself: the w:w attribute placed on fresh w:gridCol
elements by add_table, and the w:tcW slot of fresh cells. -/
structure Lib : Type where
  defGridColW : WAttr
  defCellW : Option WAttr

/-- External-library environment: the json.loads parser (none models
json.JSONDecodeError) and the python-docx construction constants. -/
structure Env : Type where
  jsonParse : String → Option Jval
  lib : Lib

/-- doc.add_table(rows=nRows, cols=nCols): a fresh table with a default
grid and one empty paragraph per cell. -/
def freshTable (lib : Lib) (nRows nCols : Nat) : Tbl :=
  { grid := some (List.replicate nCols lib.defGridColW),
    rows := List.replicate nRows
      { trH := none, cells := List.replicate nCols { tcW := lib.defCellW, paras := 1 } } }

/-- _set_table_grid: replace the w:tblGrid with str(width) attributes for
the given widths and strip the w:tcW of every cell. -/
def setTableGrid (tbl : Tbl) (widths : List Jval) : Tbl :=
  { grid := some (widths.map widthAttr),
    rows := tbl.rows.map (fun r =>
      { r with cells := r.cells.map (fun c => { c with tcW := none }) }) }

/-- _set_row_height applied to every row of the table (the code guards each
application with the same truthy row_height). -/
def applyRowHeights (tbl : Tbl) (rh : Option Int) : Tbl :=
  match rh with
  | none => tbl
  | some h => { tbl with rows := tbl.rows.map (fun r =>
      { r with trH := some { val := .num h, hRule := some "auto" } }) }

/-- Alt-row shading is attempted exactly when some odd-indexed data row
contributes at least one in-range cell; every data row must be iterable. -/
def needsAltRow (rowsL : List Jval) (nCols : Nat) : Except String Bool :=
  exFoldM (fun acc ir => do
    let cells ← pyIter ir.2
    pure (acc || (ir.1 % 2 == 1 && !cells.isEmpty && nCols > 0))) false rowsL.enum

/-- The if col_widths: guard around _set_table_grid. -/
def tableGridStep (tbl0 : Tbl) (col_widths : Jval) : Except String Tbl :=
  if col_widths.truthy then do
    let ws ← pyIter col_widths
    pure (setTableGrid tbl0 ws)
  else pure tbl0

/-- The truthy row_height turned into the trHeight value every row gets. -/
def rowHeightStep (row_height : Jval) : Except String (Option Int) :=
  if row_height.truthy then some <$> rowHeightVal row_height else pure none

/-- The colour and iterability checks of the table-section cell loops, in
source order: per header cell shading with header_bg and the run colour
from header_text_color (headers is truthy, so a header cell exists), then
the data-row iteration with alt-row shading on odd rows. -/
def tableColorChecks (header_bg header_text_color alt_row rows : Jval) (nCols : Nat) :
    Except String Unit := do
  let _ ← shadeColorStr header_bg
  let _ ← hexColorBytes header_text_color
  let rowsL ← pyIter rows
  let needAlt ← needsAltRow rowsL nCols
  let _ ← if needAlt then shadeColorStr alt_row else pure ""
  pure ()

/-- A "table" section, reduced to the table it adds (none when headers is
falsy): geometry from headers/rows/col_widths/row_height, with the colour
and border arguments validated in source order. -/
def tableSectionTbl (lib : Lib) (sec : Jval) : Except String (Option Tbl) := do
  let headers ← dataGet sec "headers" (.arr [])
  let rows ← dataGet sec "rows" (.arr [])
  let header_bg ← dataGet sec "header_bg_color" (.s "1F4E79")
  let header_text_color ← dataGet sec "header_text_color" (.s "FFFFFF")
  let alt_row ← dataGet sec "alt_row_color" (.s "F2F2F2")
  let row_height ← dataGetN sec "row_height"
  let col_widths ← dataGetN sec "col_widths"
  if !headers.truthy then pure none
  else do
    let nCols ← pyLen headers
    let nData ← pyLen rows
    let tbl0 := freshTable lib (1 + nData) nCols
    let tbl1 ← tableGridStep tbl0 col_widths
    let rh ← rowHeightStep row_height
    let _ ← tableColorChecks header_bg header_text_color alt_row rows nCols
    pure (some (applyRowHeights tbl1 rh))

/-- A "table" section: append the built table (if any) and the trailing
spacer paragraph. -/
def buildTableSection (lib : Lib) (sec : Jval) (doc : WordDoc) : Except String WordDoc := do
  let res ← tableSectionTbl lib sec
  match res with
  | none => pure doc
  | some tbl =>
    pure { doc with tables := doc.tables ++ [tbl], bodyParas := doc.bodyParas ++ [""] }

/-- rows[0]: list indexing, string indexing, or KeyError on a dict (JSON
object keys are strings, never the integer 0). -/
def pyFirstItem : Jval → Except String Jval
  | .arr (x :: _) => .ok x
  | .arr [] => .error "IndexError: list index out of range"
  | .s str =>
    match str.toList with
    | c :: _ => .ok (.s (String.mk [c]))
    | [] => .error "IndexError: string index out of range"
  | .obj _ => .error "KeyError: 0"
  | _ => .error "TypeError: object is not subscriptable"

/-- Cell-colour validation of a key_value_table, in iteration order:
cell (0,0) takes first_cell_bg shading and the first_cell_text run colour;
other first-column cells take first_col_bg shading. -/
def validateKVCells (rowsL : List Jval) (nCols : Nat) (fcBg fcText colBg : Jval) :
    Except String Unit :=
  exFoldM (fun _ ir => do
    let cells ← pyIter ir.2
    let k := min cells.length nCols
    if ir.1 == 0 then
      if k > 0 then do
        let _ ← shadeColorStr fcBg
        let _ ← hexColorBytes fcText
        pure ()
      else pure ()
    else
      if k > 0 then do
        let _ ← shadeColorStr colBg
        pure ()
      else pure ()) () rowsL.enum

/-- A "key_value_table" section, reduced to the table it adds (none when
rows is falsy). -/
def kvTableSectionTbl (lib : Lib) (sec : Jval) : Except String (Option Tbl) := do
  let rows ← dataGet sec "rows" (.arr [])
  let first_col_bg ← dataGet sec "first_col_bg_color" (.s "D6E3F0")
  let first_cell_bg ← dataGet sec "first_cell_bg_color" (.s "1F4E79")
  let first_cell_text ← dataGet sec "first_cell_text_color" (.s "FFFFFF")
  let col_widths ← dataGetN sec "col_widths"
  let row_height ← dataGetN sec "row_height"
  if !rows.truthy then pure none
  else do
    let nRows ← pyLen rows
    let first ← pyFirstItem rows
    let nCols ← pyLen first
    let tbl0 := freshTable lib nRows nCols
    let tbl1 ← tableGridStep tbl0 col_widths
    let rh ← rowHeightStep row_height
    let rowsL ← pyIter rows
    let _ ← validateKVCells rowsL nCols first_cell_bg first_cell_text first_col_bg
    pure (some (applyRowHeights tbl1 rh))

/-- A "key_value_table" section: append the built table (if any) and the
trailing spacer paragraph. -/
def buildKVTableSection (lib : Lib) (sec : Jval) (doc : WordDoc) : Except String WordDoc := do
  let res ← kvTableSectionTbl lib sec
  match res with
  | none => pure doc
  | some tbl =>
    pure { doc with tables := doc.tables ++ [tbl], bodyParas := doc.bodyParas ++ [""] }

/-- The "heading" section checks, reduced to the produced paragraph text:
add_heading validates the level, and the run colouring (which exists only
for truthy text) validates the colour. -/
def headingSectionText (sec : Jval) : Except String String := do
  let level ← dataGet sec "level" (.i 1)
  let text ← dataGet sec "text" (.s "")
  let color ← dataGet sec "color" (.s "1F4E79")
  let _ ← addHeadingLevel level
  let t ← addParaText text
  let _ ← if text.truthy then hexColorBytes color else pure ()
  pure t

/-- A "heading" section: one body paragraph. -/
def buildHeadingSection (sec : Jval) (doc : WordDoc) : Except String WordDoc := do
  let t ← headingSectionText sec
  pure { doc with bodyParas := doc.bodyParas ++ [t] }

/-- The "paragraph" section checks, reduced to the produced paragraph
text. The stored text keeps the raw string; the bold-marker splitting of
_parse_rich_text only divides the text into runs and does not change which
paragraphs exist. -/
def paragraphSectionText (sec : Jval) : Except String String := do
  let textJ ← dataGet sec "text" (.s "")
  let alignJ ← dataGet sec "alignment" (.s "left")
  let _ ← match alignJ with
    | .s _ => Except.ok ()
    | _ => Except.error "AttributeError: object has no attribute lower"
  let fontSize ← dataGet sec "font_size" (.i 11)
  let colorJ ← dataGetN sec "color"
  let _ ← dataGet sec "italic" (.b false)
  let _ ← dataGet sec "bold" (.b false)
  let text ← match textJ with
    | .s str => Except.ok str
    | _ => Except.error "TypeError: argument of type int is not iterable"
  let _ ← pyIntLike fontSize
  let _ ← if colorJ.truthy then hexColorBytes colorJ else pure ()
  let spaceAfter ← dataGet sec "space_after" (.i 6)
  let _ ← pyIntLike spaceAfter
  pure text

/-- A "paragraph" section: one body paragraph. -/
def buildParagraphSection (sec : Jval) (doc : WordDoc) : Except String WordDoc := do
  let text ← paragraphSectionText sec
  pure { doc with bodyParas := doc.bodyParas ++ [text] }

/-- The list-section checks, reduced to the produced item texts. -/
def listSectionTexts (sec : Jval) : Except String (List String) := do
  let items ← dataGet sec "items" (.arr [])
  let itemsL ← pyIter items
  exMapM addParaText itemsL

/-- A "bullet_list" or "numbered_list" section: one paragraph per item. -/
def buildListSection (sec : Jval) (doc : WordDoc) : Except String WordDoc := do
  let texts ← listSectionTexts sec
  pure { doc with bodyParas := doc.bodyParas ++ texts }

/-- Dispatch on section.get("type"); unknown types fall through silently. -/
def buildSection (lib : Lib) (doc : WordDoc) (sec : Jval) : Except String WordDoc := do
  let ty ← dataGetN sec "type"
  match ty with
  | .s "heading" => buildHeadingSection sec doc
  | .s "paragraph" => buildParagraphSection sec doc
  | .s "bullet_list" => buildListSection sec doc
  | .s "numbered_list" => buildListSection sec doc
  | .s "table" => buildTableSection lib sec doc
  | .s "key_value_table" => buildKVTableSection lib sec doc
  | .s "page_break" => pure { doc with bodyParas := doc.bodyParas ++ [""] }
  | .s "spacer" => pure { doc with bodyParas := doc.bodyParas ++ [""] }
  | _ => pure doc

/-- The header/footer/title/subtitle text values: used only when truthy,
and assignment of a truthy non-string to paragraph text raises. -/
def headerText (v : Jval) : Except String (Option String) :=
  if v.truthy then
    match v with
    | .s str => .ok (some str)
    | _ => .error "TypeError: text must be a string"
  else .ok none

/-- The whole document assembly of create_formatted_word_document (pure:
margins, the Normal style and fonts mutate only unobserved properties). -/
def buildFormattedDoc (lib : Lib) (data : Jval) : Except String WordDoc := do
  let hdr ← dataGetN data "header"
  let hdrText ← headerText hdr
  let ftr ← dataGetN data "footer"
  let ftrText ← headerText ftr
  let ttl ← dataGetN data "title"
  let ttlText ← headerText ttl
  let sub ← dataGetN data "subtitle"
  let subText ← headerText sub
  let doc0 : WordDoc :=
    { blankDoc with
      hasHeaderPart := hdrText.isSome
      hasFooterPart := ftrText.isSome
      bodyParas :=
        (match ttlText with | some t => [t] | none => []) ++
        (match subText with | some t => [t] | none => []) }
  let secsJ ← dataGet data "sections" (.arr [])
  let secs ← pyIter secsJ
  exFoldM (buildSection lib) doc0 secs

/-- Row report: trHeight presence, int(val) if val else None, and hRule. -/
def readRowInfo (j : Nat) (row : Tr) : Except String RowInfo :=
  match row.trH with
  | none => .ok { row_index := j, height := none, height_rule := none }
  | some th => do
    let h ← match th.val with
      | .absent => Except.ok (none : Option Int)
      | .num n => Except.ok (some n)
      | .bad => Except.error "ValueError: invalid literal for int()"
    pure { row_index := j, height := h, height_rule := th.hRule }

/-- Cell width report: none without a w:tcPr/w:tcW, else int(tcW.get(w, 0)). -/
def readCellW (c : Tc) : Except String (Option Int) :=
  match c.tcW with
  | none => .ok none
  | some a => do
    let n ← readWAttr a
    pure (some n)

/-- One row of the per-table analysis: the row-height report, then the
cell widths of the row. -/
def readRowPair (jr : Nat × Tr) : Except String (RowInfo × List (Option Int)) := do
  let ri ← readRowInfo jr.1 jr.2
  let cw ← exMapM readCellW jr.2.cells
  pure (ri, cw)

/-- The per-table analysis of read_word_document_structure: grid widths
first, then row heights and cell widths row by row. -/
def readTableInfo (i : Nat) (tbl : Tbl) : Except String TableInfo := do
  let gres ←
    match tbl.grid with
    | none => pure (([] : List Int), (none : Option String))
    | some g => do
      let ws ← exMapM readWAttr g
      pure (ws, some "tblGrid")
  let rowRes ← exMapM readRowPair tbl.rows.enum
  pure { table_index := i + 1
         column_widths := gres.1
         column_widths_source := gres.2
         row_count := tbl.rows.length
         row_heights := rowRes.map Prod.fst
         has_explicit_row_heights := tbl.rows.any (fun r => r.trH.isSome)
         cell_widths := rowRes.map Prod.snd }

/-- pd.DataFrame(data) on a decoded JSON value: lists build a frame, dicts
of columns build a frame unless every value is a scalar, scalars raise. -/
def Jval.isScalar : Jval → Bool
  | .null => true
  | .b _ => true
  | .i _ => true
  | .s _ => true
  | _ => false

/-- pd.DataFrame applied to json.loads output. -/
def dfOfJval : Jval → Except String Df
  | .arr xs => .ok (.ofJson (.arr xs))
  | .obj kvs =>
    if kvs.isEmpty then .ok (.ofJson (.obj []))
    else if kvs.all (fun kv => kv.2.isScalar) then
      .error "ValueError: If using all scalar values, you must pass an index"
    else .ok (.ofJson (.obj kvs))
  | _ => .error "ValueError: DataFrame constructor not properly called"

/-- The comma-separated fallback grid of create_excel_file. -/
def csvFallbackGrid (content : String) : List (List String) :=
  (content.trim.splitOn "\n").map (fun line => line.splitOn ",")

/-- pd.read_csv: EmptyDataError on blank input, ParserError when a later
line carries more fields than the header line, else the line/field grid
(quoting and type inference are not modelled — nothing reads the cells
back). -/
def readCsv (content : String) : Except String Df :=
  let lines := (content.splitOn "\n").filter (fun l => l.trim ≠ "")
  match lines with
  | [] => .error "EmptyDataError: No columns to parse from file"
  | header :: rest =>
    let hw := (header.splitOn ",").length
    if rest.any (fun l => (l.splitOn ",").length > hw) then
      .error "ParserError: Error tokenizing data"
    else .ok (.ofCsv (lines.map (fun l => l.splitOn ",")))

/-- Nominal worksheet layout of DataFrame.to_excel(index=False): column
labels first for JSON/grid frames (a fallback grid gets the RangeIndex
labels 0..w-1), raw rows for CSV frames whose first row is the header.
Nothing in the repository reads spreadsheet cell values back. -/
def dfRows : Df → List (List Jval)
  | .ofCsv g => g.map (fun row => row.map Jval.s)
  | .ofGrid g =>
    let w := (g.map List.length).foldl max 0
    ((List.range w).map (fun c => Jval.i c)) :: g.map (fun row => row.map Jval.s)
  | .ofJson (.arr xs) =>
    let rows := xs.map (fun x => match x with | .arr ys => ys | v => [v])
    let w := (rows.map List.length).foldl max 0
    ((List.range w).map (fun c => Jval.i c)) :: rows
  | .ofJson (.obj kvs) =>
    let cols := kvs.map (fun kv => match kv.2 with | .arr ys => ys | v => [v])
    let h := (cols.map List.length).foldl max 0
    (kvs.map (fun kv => Jval.s kv.1)) ::
      (List.range h).map (fun r => cols.map (fun col => col.getD r .null))
  | .ofJson v => [[v]]

/-- Rows of values laid out as 1-based worksheet cells. -/
def wsOfRows (rows : List (List Jval)) : Ws :=
  { cells := (rows.enum.map (fun rj =>
      rj.2.enum.map (fun cv => (((rj.1 + 1, cv.1 + 1) : Nat × Nat), cv.2)))).flatten }

/-- df.to_excel: a single default sheet. -/
def wbOfDf (df : Df) : Workbook :=
  { sheets := [("Sheet1", wsOfRows (dfRows df))] }

/-- Set one worksheet cell. -/
def wsSet (ws : Ws) (r c : Nat) (v : Jval) : Ws :=
  { cells := (ws.cells.filter (fun kv => kv.1 != (r, c))) ++ [((r, c), v)] }

/-- sheet.delete_rows(n): drop row n and shift higher rows down. -/
def wsDeleteRow (ws : Ws) (n : Int) : Ws :=
  { cells := (ws.cells.filter (fun kv => (kv.1.1 : Int) ≠ n)).map (fun kv =>
      if (kv.1.1 : Int) > n then ((kv.1.1 - 1, kv.1.2), kv.2) else kv) }

/-- sheet.delete_cols(n): drop column n and shift higher columns left. -/
def wsDeleteCol (ws : Ws) (n : Int) : Ws :=
  { cells := (ws.cells.filter (fun kv => (kv.1.2 : Int) ≠ n)).map (fun kv =>
      if (kv.1.2 : Int) > n then ((kv.1.1, kv.1.2 - 1), kv.2) else kv) }

/-- Apply a function to one named sheet. -/
def wbModify (wb : Workbook) (nm : String) (f : Ws → Ws) : Workbook :=
  { sheets := wb.sheets.map (fun kv => if kv.1 == nm then (kv.1, f kv.2) else kv) }

/-- sheet.cell coordinates: integers at least 1 (bools count as integers). -/
def cellCoord (v : Jval) : Except String Nat := do
  let n ← pyIntLike v
  if n < 1 then .error "ValueError: Row or column values must be at least 1"
  else .ok n.toNat

/-- openpyxl cell values: lists and dicts cannot be converted. -/
def cellValueOk : Jval → Except String Jval
  | .arr _ => .error "ValueError: Cannot convert list to Excel"
  | .obj _ => .error "ValueError: Cannot convert dict to Excel"
  | v => .ok v

/-- The update_range double loop. -/
def updateRangeWs (sr sc : Int) (rows : List Jval) (ws : Ws) : Except String Ws :=
  exFoldM (fun acc ir => do
    let cellsJ ← pyIter ir.2
    exFoldM (fun acc2 jv => do
      let r := sr + (ir.1 : Int)
      let c := sc + (jv.1 : Int)
      if r < 1 ∨ c < 1 then
        Except.error "ValueError: Row or column values must be at least 1"
      else do
        let v ← cellValueOk jv.2
        Except.ok (wsSet acc2 r.toNat c.toNat v)) acc cellsJ.enum) ws rows.enum

/-- A Python dict argument (FastMCP has already enforced List[Dict] typing). -/
def PyDict : Type := List (String × Jval)

/-- One edit_excel_file operation. The sheet default wb.sheetnames[0] is
evaluated eagerly, and a missing sheet is created before dispatch. -/
def applyExcelOp (wb : Workbook) (op : PyDict) : Except String Workbook := do
  let opType := dictGet op "type"
  let first ←
    match wb.sheets.head? with
    | some kv => Except.ok kv.1
    | none => Except.error "IndexError: sheetnames list is empty"
  let sheetJ := (dictGet op "sheet").getD (.s first)
  let sheetName ←
    match sheetJ with
    | .s nm => Except.ok nm
    | _ => Except.error "TypeError: sheet title must be a string"
  let wb1 :=
    if wb.sheets.any (fun kv => kv.1 == sheetName) then wb
    else { sheets := wb.sheets ++ [(sheetName, { cells := [] })] }
  match opType with
  | some (.s "update_cell") => do
    let r ← cellCoord ((dictGet op "row").getD (.i 1))
    let c ← cellCoord ((dictGet op "col").getD (.i 1))
    let v ← cellValueOk ((dictGet op "value").getD (.s ""))
    pure (wbModify wb1 sheetName (fun ws => wsSet ws r c v))
  | some (.s "update_range") => do
    let sr ← pyIntLike ((dictGet op "start_row").getD (.i 1))
    let sc ← pyIntLike ((dictGet op "start_col").getD (.i 1))
    let valsJ := (dictGet op "values").getD (.arr [])
    let rows ← pyIter valsJ
    let sheet0 ←
      match (wb1.sheets.find? (fun kv => kv.1 == sheetName)).map (fun kv => kv.2) with
      | some ws => Except.ok ws
      | none => Except.error "KeyError: worksheet"
    let ws' ← updateRangeWs sr sc rows sheet0
    pure (wbModify wb1 sheetName (fun _ => ws'))
  | some (.s "delete_row") => do
    let r ← pyIntLike ((dictGet op "row").getD (.i 1))
    pure (wbModify wb1 sheetName (fun ws => wsDeleteRow ws r))
  | some (.s "delete_column") => do
    let c ← pyIntLike ((dictGet op "col").getD (.i 1))
    pure (wbModify wb1 sheetName (fun ws => wsDeleteCol ws c))
  | some (.s "add_sheet") =>
    match (dictGet op "name").getD (.s "NewSheet") with
    | .s nm =>
      pure (if wb1.sheets.any (fun kv => kv.1 == nm) then wb1
            else { sheets := wb1.sheets ++ [(nm, { cells := [] })] })
    | _ => .error "TypeError: sheet title must be a string"
  | some (.s "delete_sheet") =>
    pure (if wb1.sheets.length > 1
          then { sheets := wb1.sheets.filter (fun kv => kv.1 != sheetName) }
          else wb1)
  | _ => pure wb1

/-- Word-document edit operations (edit_word_document). Out-of-range
indices are silently skipped; unknown types fall through. -/
def applyWordOp (doc : WordDoc) (op : PyDict) : Except String WordDoc := do
  match dictGet op "type" with
  | some (.s "add_paragraph") => do
    let t ← addParaText ((dictGet op "text").getD (.s ""))
    pure { doc with bodyParas := doc.bodyParas ++ [t] }
  | some (.s "add_heading") => do
    let _ ← addHeadingLevel ((dictGet op "level").getD (.i 1))
    let t ← addParaText ((dictGet op "text").getD (.s ""))
    pure { doc with bodyParas := doc.bodyParas ++ [t] }
  | some (.s "edit_paragraph") => do
    let idx ← pyIntLike ((dictGet op "index").getD (.i 0))
    if 0 ≤ idx ∧ idx < (doc.bodyParas.length : Int) then do
      let t ← addParaText ((dictGet op "text").getD (.s ""))
      pure { doc with bodyParas := doc.bodyParas.set idx.toNat t }
    else pure doc
  | some (.s "delete_paragraph") => do
    let idx ← pyIntLike ((dictGet op "index").getD (.i 0))
    if 0 ≤ idx ∧ idx < (doc.bodyParas.length : Int) then
      pure { doc with bodyParas := doc.bodyParas.eraseIdx idx.toNat }
    else pure doc
  | _ => pure doc

/-- create_word_document body: blank document, one paragraph, makedirs,
save. -/
def create_word_document_body (filepath content : String) : M Res := do
  let doc := { blankDoc with bodyParas := [content] }
  osMakedirs (dirnameOf filepath)
  saveFile filepath (.docx doc)
  pure { success := true, message := some "Successfully created Word document",
         filepath := some filepath }

/-- Tool create_word_document. -/
def create_word_document (filepath content : String) (st : St) : Res × St :=
  wrap (fun e => { success := false,
                   message := some ("Error creating Word document: " ++ e),
                   filepath := none })
    (create_word_document_body filepath content) st

/-- read_word_document_structure body. -/
def read_word_document_structure_body (filepath : String) : M Res := do
  let d ← openZipDocx filepath
  let tis ← M.liftE (exMapM (fun it => readTableInfo it.1 it.2) d.tables.enum)
  pure { success := true, filepath := some filepath,
         tables_count := some tis.length, tables := some tis,
         paragraphs_count := some (countParas d),
         has_header := some d.hasHeaderPart, has_footer := some d.hasFooterPart }

/-- Tool read_word_document_structure. Its error dict keeps the filepath. -/
def read_word_document_structure (filepath : String) (st : St) : Res × St :=
  wrap (fun e => { success := false,
                   message := some ("Error analyzing Word document: " ++ e),
                   filepath := some filepath })
    (read_word_document_structure_body filepath) st

/-- The per-table difference list of compare_word_documents, in source
order: column_widths, has_explicit_row_heights, row_count. -/
def tableDiffList (t1 t2 : TableInfo) : List TableDiff :=
  (if t1.column_widths ≠ t2.column_widths then
    [TableDiff.columnWidths t1.column_widths t2.column_widths
      t1.column_widths_source t2.column_widths_source]
   else []) ++
  (if t1.has_explicit_row_heights ≠ t2.has_explicit_row_heights then
    [TableDiff.rowHeightsFlag t1.has_explicit_row_heights t2.has_explicit_row_heights]
   else []) ++
  (if t1.row_count ≠ t2.row_count then
    [TableDiff.rowCount t1.row_count t2.row_count]
   else [])

/-- doc["tables"][i]: in-range indexing of the reported table list. -/
def listGetE {α : Type} (l : List α) (i : Nat) : Except String α :=
  match l.get? i with
  | some x => .ok x
  | none => .error "IndexError: list index out of range"

/-- The difference computation of compare_word_documents: a tables_count
entry first, then one entry per table index with a nonempty difference
list. -/
def computeDiffs (n1 n2 : Nat) (ts1 ts2 : List TableInfo) : Except String (List Diff) := do
  let base := if n1 ≠ n2 then [Diff.tablesCount n1 n2] else []
  let perTable ← exMapM (fun i => do
      let t1 ← listGetE ts1 i
      let t2 ← listGetE ts2 i
      pure (i, tableDiffList t1 t2)) (List.range (min n1 n2))
  pure (base ++ perTable.filterMap (fun il =>
    if il.2.isEmpty then none else some (.tableDiffs (il.1 + 1) il.2)))

/-- Reading a required key of a reported dict (KeyError if the handler did
not emit it — unreachable for success dicts). -/
def reqKey {α : Type} (v : Option α) (key : String) : Except String α :=
  match v with
  | some x => .ok x
  | none => .error ("KeyError: " ++ key)

/-- compare_word_documents body: two full read_word_document_structure
calls (each with its own try/except), then the difference report. -/
def compare_word_documents_body (filepath1 filepath2 : String) : M Res := do
  let st0 ← M.getSt
  let p1 := read_word_document_structure filepath1 st0
  let p2 := read_word_document_structure filepath2 p1.2
  M.setSt p2.2
  let r1 := p1.1
  let r2 := p2.1
  if !r1.success || !r2.success then
    pure { success := false, message := some "Failed to read one or both documents",
           doc1_error := some r1.message, doc2_error := some r2.message }
  else do
    let n1 ← M.liftE (reqKey r1.tables_count "tables_count")
    let n2 ← M.liftE (reqKey r2.tables_count "tables_count")
    let ts1 ← M.liftE (reqKey r1.tables "tables")
    let ts2 ← M.liftE (reqKey r2.tables "tables")
    let diffs ← M.liftE (computeDiffs n1 n2 ts1 ts2)
    let isId := diffs.isEmpty
    pure { success := true, is_identical := some isId,
           filepath1 := some filepath1, filepath2 := some filepath2,
           differences := some diffs,
           summary := some (if isId then "Documents are identical in structure"
                            else s!"Found {diffs.length} difference(s)") }

/-- Tool compare_word_documents. -/
def compare_word_documents (filepath1 filepath2 : String) (st : St) : Res × St :=
  wrap (fun e => { success := false,
                   message := some ("Error comparing Word documents: " ++ e) })
    (compare_word_documents_body filepath1 filepath2) st

/-- create_formatted_word_document body: json.loads with its inner
except-JSONDecodeError, document assembly, makedirs, save. -/
def create_formatted_word_document_body (env : Env) (filepath document_data : String) :
    M Res := do
  match env.jsonParse document_data with
  | none =>
    pure { success := false,
           message := some "Invalid JSON format: Expecting value",
           filepath := none }
  | some data => do
    let doc ← M.liftE (buildFormattedDoc env.lib data)
    osMakedirs (dirnameOf filepath)
    saveFile filepath (.docx doc)
    pure { success := true,
           message := some "Successfully created formatted Word document",
           filepath := some filepath }

/-- Tool create_formatted_word_document. -/
def create_formatted_word_document (env : Env) (filepath document_data : String)
    (st : St) : Res × St :=
  wrap (fun e => { success := false,
                   message := some ("Error creating formatted Word document: " ++ e),
                   filepath := none })
    (create_formatted_word_document_body env filepath document_data) st

/-- edit_word_document body. -/
def edit_word_document_body (filepath : String) (operations : List PyDict) : M Res := do
  let st ← M.getSt
  if !(st.exists' filepath) then
    pure { success := false, message := some ("File not found: " ++ filepath),
           filepath := none }
  else do
    let doc ← openDocx filepath
    let doc' ← M.liftE (exFoldM applyWordOp doc operations)
    saveFile filepath (.docx doc')
    pure { success := true, message := some "Successfully edited Word document",
           filepath := some filepath }

/-- Tool edit_word_document. -/
def edit_word_document (filepath : String) (operations : List PyDict) (st : St) :
    Res × St :=
  wrap (fun e => { success := false,
                   message := some ("Error editing Word document: " ++ e),
                   filepath := none })
    (edit_word_document_body filepath operations) st

/-- convert_txt_to_word body: paragraphs are the nonblank-stripped lines,
added unstripped. -/
def convert_txt_to_word_body (source_path target_path : String) : M Res := do
  let st ← M.getSt
  if !(st.exists' source_path) then
    pure { success := false, message := some ("Source file not found: " ++ source_path),
           filepath := none }
  else do
    let text ← openTextRead source_path
    let doc := { blankDoc with
      bodyParas := (text.splitOn "\n").filter (fun p => p.trim ≠ "") }
    osMakedirs (dirnameOf target_path)
    saveFile target_path (.docx doc)
    pure { success := true,
           message := some "Successfully converted text to Word document",
           filepath := some target_path }

/-- Tool convert_txt_to_word. -/
def convert_txt_to_word (source_path target_path : String) (st : St) : Res × St :=
  wrap (fun e => { success := false,
                   message := some ("Error converting text to Word: " ++ e),
                   filepath := none })
    (convert_txt_to_word_body source_path target_path) st

/-- create_excel_file body: json.loads with the comma-separated fallback on
JSONDecodeError, DataFrame, makedirs, to_excel. -/
def create_excel_file_body (env : Env) (filepath content : String) : M Res := do
  let df ←
    match env.jsonParse content with
    | some jv => M.liftE (dfOfJval jv)
    | none => pure (Df.ofGrid (csvFallbackGrid content))
  osMakedirs (dirnameOf filepath)
  saveFile filepath (.xlsx (wbOfDf df))
  pure { success := true, message := some "Successfully created Excel file",
         filepath := some filepath }

/-- Tool create_excel_file. -/
def create_excel_file (env : Env) (filepath content : String) (st : St) : Res × St :=
  wrap (fun e => { success := false,
                   message := some ("Error creating Excel file: " ++ e),
                   filepath := none })
    (create_excel_file_body env filepath content) st

/-- edit_excel_file body. -/
def edit_excel_file_body (filepath : String) (operations : List PyDict) : M Res := do
  let st ← M.getSt
  if !(st.exists' filepath) then
    pure { success := false, message := some ("File not found: " ++ filepath),
           filepath := none }
  else do
    let wb ← loadWorkbook filepath
    let wb' ← M.liftE (exFoldM applyExcelOp wb operations)
    saveFile filepath (.xlsx wb')
    pure { success := true, message := some "Successfully edited Excel file",
           filepath := some filepath }

/-- Tool edit_excel_file. -/
def edit_excel_file (filepath : String) (operations : List PyDict) (st : St) :
    Res × St :=
  wrap (fun e => { success := false,
                   message := some ("Error editing Excel file: " ++ e),
                   filepath := none })
    (edit_excel_file_body filepath operations) st

/-- convert_csv_to_excel body. -/
def convert_csv_to_excel_body (source_path target_path : String) : M Res := do
  let st ← M.getSt
  if !(st.exists' source_path) then
    pure { success := false, message := some ("Source file not found: " ++ source_path),
           filepath := none }
  else do
    let text ← openTextRead source_path
    let df ← M.liftE (readCsv text)
    osMakedirs (dirnameOf target_path)
    saveFile target_path (.xlsx (wbOfDf df))
    pure { success := true, message := some "Successfully converted CSV to Excel",
           filepath := some target_path }

/-- Tool convert_csv_to_excel. -/
def convert_csv_to_excel (source_path target_path : String) (st : St) : Res × St :=
  wrap (fun e => { success := false,
                   message := some ("Error converting CSV to Excel: " ++ e),
                   filepath := none })
    (convert_csv_to_excel_body source_path target_path) st

/-- create_pdf_file body: the canvas writes the file on c.save(). -/
def create_pdf_file_body (filepath content : String) : M Res := do
  osMakedirs (dirnameOf filepath)
  saveFile filepath (.pdf (.text (content.splitOn "\n")))
  pure { success := true, message := some "Successfully created PDF file",
         filepath := some filepath }

/-- Tool create_pdf_file. -/
def create_pdf_file (filepath content : String) (st : St) : Res × St :=
  wrap (fun e => { success := false,
                   message := some ("Error creating PDF file: " ++ e),
                   filepath := none })
    (create_pdf_file_body filepath content) st

/-- convert_word_to_pdf body: docx2pdf.convert requires a Word document at
the source (and a Word installation, modelled as available). -/
def convert_word_to_pdf_body (source_path target_path : String) : M Res := do
  let st ← M.getSt
  if !(st.exists' source_path) then
    pure { success := false, message := some ("Source file not found: " ++ source_path),
           filepath := none }
  else do
    osMakedirs (dirnameOf target_path)
    let d ← openDocx source_path
    saveFile target_path (.pdf (.rendered d))
    pure { success := true, message := some "Successfully converted Word to PDF",
           filepath := some target_path }

/-- Tool convert_word_to_pdf. -/
def convert_word_to_pdf (source_path target_path : String) (st : St) : Res × St :=
  wrap (fun e => { success := false,
                   message := some ("Error converting Word to PDF: " ++ e),
                   filepath := none })
    (convert_word_to_pdf_body source_path target_path) st

/-- The confirm-parameter rejection message of the delete tools (the
apostrophes quoting parameter names in the source literal are elided). -/
def confirmRejectMsg : String :=
  "Suppression annulee. Le parametre confirm doit etre: CORBEILLE (recuperable) ou SUPPRESSION DÉFINITIVE (permanent)"

/-- delete_file body: confirm gate, existence and directory checks, then
trash or permanent removal. -/
def delete_file_body (filepath confirm : String) : M Res := do
  if !(confirm == "CORBEILLE" || confirm == "SUPPRESSION DÉFINITIVE") then
    pure { success := false, message := some confirmRejectMsg,
           filepath := some filepath, deleted := some false }
  else do
    let st ← M.getSt
    if !(st.exists' filepath) then
      pure { success := false, message := some ("File not found: " ++ filepath),
             filepath := some filepath, deleted := some false }
    else if st.isDir filepath then
      pure { success := false,
             message := some ("Cannot delete directory with this function: " ++ filepath),
             filepath := some filepath, deleted := some false }
    else do
      let size := match st.entryAt filepath with
        | some (.file c) => fcSize c
        | _ => 0
      let name := basenameOf filepath
      if confirm == "CORBEILLE" then do
        sendToTrash filepath
        pure { success := true,
               message := some (s!"Envoye a la corbeille: {name} ({size} bytes) - RECUPERABLE"),
               filepath := some filepath, deleted := some true, method := some "trash" }
      else do
        osRemove filepath
        pure { success := true,
               message := some (s!"Supprime definitivement: {name} ({size} bytes) - NON RECUPERABLE"),
               filepath := some filepath, deleted := some true, method := some "permanent" }

/-- Tool delete_file (the dedicated except-PermissionError clause also
returns a success-false dict; the model filesystem has no permissions). -/
def delete_file (filepath confirm : String) (st : St) : Res × St :=
  wrap (fun e => { success := false, message := some ("Error deleting file: " ++ e),
                   filepath := some filepath, deleted := some false })
    (delete_file_body filepath confirm) st

/-- delete_directory body: confirm gate, existence/type checks, the
emptiness check, then trash or rmdir. -/
def delete_directory_body (dirpath confirm : String) : M Res := do
  if !(confirm == "CORBEILLE" || confirm == "SUPPRESSION DÉFINITIVE") then
    pure { success := false, message := some confirmRejectMsg,
           dirpath := some dirpath, deleted := some false }
  else do
    let st ← M.getSt
    if !(st.exists' dirpath) then
      pure { success := false, message := some ("Directory not found: " ++ dirpath),
             dirpath := some dirpath, deleted := some false }
    else if !(st.isDir dirpath) then
      pure { success := false, message := some ("Not a directory: " ++ dirpath),
             dirpath := some dirpath, deleted := some false }
    else do
      let contents := listdir st dirpath
      if !contents.isEmpty then
        pure { success := false,
               message := some (s!"Directory not empty ({contents.length} items). Delete contents first."),
               dirpath := some dirpath, contents := some (contents.take 10),
               deleted := some false }
      else if confirm == "CORBEILLE" then do
        sendToTrash dirpath
        pure { success := true,
               message := some ("Dossier envoye a la corbeille: " ++ dirpath ++ " - RECUPERABLE"),
               dirpath := some dirpath, deleted := some true, method := some "trash" }
      else do
        osRmdir dirpath
        pure { success := true,
               message := some ("Dossier supprime definitivement: " ++ dirpath ++ " - NON RECUPERABLE"),
               dirpath := some dirpath, deleted := some true, method := some "permanent" }

/-- Tool delete_directory. -/
def delete_directory (dirpath confirm : String) (st : St) : Res × St :=
  wrap (fun e => { success := false, message := some ("Error deleting directory: " ++ e),
                   dirpath := some dirpath, deleted := some false })
    (delete_directory_body dirpath confirm) st

/-- One invocation of any of the thirteen tool handlers. -/
inductive ToolCall : Type
  | createWord (filepath content : String)
  | readStructure (filepath : String)
  | compareDocs (filepath1 filepath2 : String)
  | createFormatted (filepath document_data : String)
  | editWord (filepath : String) (operations : List PyDict)
  | txtToWord (source_path target_path : String)
  | createExcel (filepath content : String)
  | editExcel (filepath : String) (operations : List PyDict)
  | csvToExcel (source_path target_path : String)
  | createPdf (filepath content : String)
  | wordToPdf (source_path target_path : String)
  | deleteFile (filepath confirm : String)
  | deleteDir (dirpath confirm : String)

/-- The untried body of a tool call, for stating the exception-mapping
claim: exactly the code inside the try of the dispatched handler. -/
def toolBody (env : Env) : ToolCall → M Res
  | .createWord fp c => create_word_document_body fp c
  | .readStructure fp => read_word_document_structure_body fp
  | .compareDocs p1 p2 => compare_word_documents_body p1 p2
  | .createFormatted fp d => create_formatted_word_document_body env fp d
  | .editWord fp ops => edit_word_document_body fp ops
  | .txtToWord sp tp => convert_txt_to_word_body sp tp
  | .createExcel fp c => create_excel_file_body env fp c
  | .editExcel fp ops => edit_excel_file_body fp ops
  | .csvToExcel sp tp => convert_csv_to_excel_body sp tp
  | .createPdf fp c => create_pdf_file_body fp c
  | .wordToPdf sp tp => convert_word_to_pdf_body sp tp
  | .deleteFile fp c => delete_file_body fp c
  | .deleteDir dp c => delete_directory_body dp c

/-- Dispatch a tool call to its handler. -/
def runTool (env : Env) : ToolCall → St → Res × St
  | .createWord fp c => create_word_document fp c
  | .readStructure fp => read_word_document_structure fp
  | .compareDocs p1 p2 => compare_word_documents p1 p2
  | .createFormatted fp d => create_formatted_word_document env fp d
  | .editWord fp ops => edit_word_document fp ops
  | .txtToWord sp tp => convert_txt_to_word sp tp
  | .createExcel fp c => create_excel_file env fp c
  | .editExcel fp ops => edit_excel_file fp ops
  | .csvToExcel sp tp => convert_csv_to_excel sp tp
  | .createPdf fp c => create_pdf_file fp c
  | .wordToPdf sp tp => convert_word_to_pdf sp tp
  | .deleteFile fp c => delete_file fp c
  | .deleteDir dp c => delete_directory dp c

/-- Sequential execution of a history of tool calls, threading only the
filesystem state. -/
def execList (env : Env) (hist : List ToolCall) (st : St) : St :=
  hist.foldl (fun s c => (runTool env c s).2) st

/-- A default TableInfo used only as the List.getD fallback in proofs. -/
def dummyTI : TableInfo :=
  { table_index := 0, column_widths := [], column_widths_source := none,
    row_count := 0, row_heights := [], has_explicit_row_heights := false,
    cell_widths := [] }

/-- The difference list computeDiffs produces when both table lists are
fully indexable (the only reachable case), as a pure function. -/
def pureDiffs (ts1 ts2 : List TableInfo) : List Diff :=
  (if ts1.length ≠ ts2.length then [Diff.tablesCount ts1.length ts2.length] else []) ++
    ((List.range (min ts1.length ts2.length)).map
      (fun i => (i, tableDiffList (ts1.getD i dummyTI) (ts2.getD i dummyTI)))).filterMap
      (fun il => if il.2.isEmpty then none else some (.tableDiffs (il.1 + 1) il.2))

/-- A concrete table for the C4/C5 witnesses. -/
def tblW : Tbl :=
  { grid := some [.num 3000, .num 4000],
    rows := [{ trH := none,
               cells := [{ tcW := none, paras := 1 }, { tcW := none, paras := 1 }] }] }

/-- A concrete one-table document for the C4/C5 witnesses. -/
def docTW : WordDoc :=
  { tables := [tblW], bodyParas := ["p"], hasHeaderPart := false, hasFooterPart := false }

/-- A document with the same table geometry but different paragraphs and a
header part, for the C5 witness. -/
def docTW2 : WordDoc :=
  { tables := [tblW], bodyParas := ["different", "paras"],
    hasHeaderPart := true, hasFooterPart := false }

/-- The table report of tblW, for the C4 witness. -/
def tiW : TableInfo :=
  { table_index := 1, column_widths := [3000, 4000],
    column_widths_source := some "tblGrid", row_count := 1,
    row_heights := [{ row_index := 0, height := none, height_rule := none }],
    has_explicit_row_heights := false, cell_widths := [[none, none]] }

/-- A state holding docTW, for the C4 witness. -/
def stTW : St := { fs := [("/r.docx", .file (.docx docTW))], trash := [] }

/-- A state holding both comparison documents, for the C5 witness. -/
def stCW : St :=
  { fs := [("/r.docx", .file (.docx docTW)), ("/r2.docx", .file (.docx docTW2))],
    trash := [] }

/-- A concrete comma-separated content string, for the C9 witness. -/
def csvContentW : String := "a,b\nc,d"

/-- Concrete library constants for witnesses (python-docx defaults). -/
def libW : Lib := { defGridColW := .num 2880, defCellW := none }

/-- A concrete environment whose JSON parser rejects every string. -/
def envW : Env := { jsonParse := fun _ => none, lib := libW }

/-- The empty filesystem state. -/
def stEmpty : St := { fs := [], trash := [] }

/-- A concrete path for witnesses. -/
def pathA : String := "/a.txt"

/-- A concrete text file for witnesses. -/
def fcA : FileContent := .text "hi"

/-- A state holding one text file, for witnesses. -/
def stFileW : St := { fs := [(pathA, .file fcA)], trash := [] }

/-- A concrete directory path for witnesses. -/
def dirD : String := "/d"

/-- A one-paragraph document for the C8 witness. -/
def docW : WordDoc := { blankDoc with bodyParas := ["x"] }

/-- A state holding docW, for the C8 witness. -/
def stDocW : St := { fs := [("/w.docx", .file (.docx docW))], trash := [] }

/-- An out-of-range edit operation, for the C8 witness. -/
def opOob : PyDict := [("type", .s "edit_paragraph"), ("index", .i 5), ("text", .s "z")]

/-- An in-range add operation, for the C8 witness. -/
def opAdd : PyDict := [("type", .s "add_paragraph"), ("text", .s "q")]

/-- A concrete table section: two headers, one data row, col_widths. -/
def tableSecC6 : Jval :=
  .obj [("type", .s "table"),
        ("headers", .arr [.s "A", .s "B"]),
        ("rows", .arr [.arr [.s "x", .s "y"]]),
        ("col_widths", .arr [.i 3000, .i 4000])]

/-- A concrete document_data value with one table section. -/
def docJvC6 : Jval := .obj [("sections", .arr [tableSecC6])]

/-- An environment whose json.loads decodes "DOC" to docJvC6. -/
def envC6 : Env :=
  { jsonParse := fun s => if s == "DOC" then some docJvC6 else none, lib := libW }

/-- The document that assembly produces from docJvC6. -/
def docC6 : WordDoc := (buildFormattedDoc libW docJvC6).toOption.getD blankDoc

/-- The per-table reports read back from docC6. -/
def tisC6 : List TableInfo :=
  (exMapM (fun it => readTableInfo it.1 it.2) docC6.tables.enum).toOption.getD []

/-- A state holding a nonempty directory, for witnesses. -/
def stDirW : St := { fs := [("/d", .dir), ("/d/x", .file (.text "y"))], trash := [] }

@[simp]
theorem M_bind_apply {α β : Type} (x : M α) (f : α → M β) (s : St) :
    (x >>= f) s = match x s with
      | (.ok a, s1) => f a s1
      | (.error e, s1) => (.error e, s1) := rfl

@[simp]
theorem M_pure_apply {α : Type} (a : α) (s : St) :
    (pure a : M α) s = (.ok a, s) := rfl

@[simp]
theorem M_fail_apply {α : Type} (e : String) (s : St) :
    (M.fail e : M α) s = (.error e, s) := rfl

@[simp]
theorem M_getSt_apply (s : St) : M.getSt s = (.ok s, s) := rfl

@[simp]
theorem M_setSt_apply (s' s : St) : M.setSt s' s = (.ok (), s') := rfl

@[simp]
theorem M_liftE_ok {α : Type} (a : α) (s : St) :
    (M.liftE (.ok a) : M α) s = (.ok a, s) := rfl

@[simp]
theorem M_liftE_error {α : Type} (e : String) (s : St) :
    (M.liftE (.error e) : M α) s = (.error e, s) := rfl

@[simp]
theorem M_liftE_apply {α : Type} (x : Except String α) (s : St) :
    (M.liftE x) s = (match x with
      | .ok a => (.ok a, s)
      | .error e => (.error e, s)) := rfl

/-- C1: every tool handler wraps its whole body in try/except, so an
exception raised anywhere inside the body of any of the thirteen tools is
never propagated: the handler returns the error-mapping dict, with
success = false and a message string, from the state reached at the
exception point. -/
theorem claim_C1_exceptions_mapped (env : Env) (c : ToolCall) (st : St)
    (e : String) (st2 : St) (h : toolBody env c st = (.error e, st2)) :
    (runTool env c st).1.success = false ∧
    (runTool env c st).1.message.isSome ∧
    (runTool env c st).2 = st2 := by
  cases c <;> simp only [toolBody] at h <;>
    simp [runTool, create_word_document, read_word_document_structure,
      compare_word_documents, create_formatted_word_document, edit_word_document,
      convert_txt_to_word, create_excel_file, edit_excel_file, convert_csv_to_excel,
      create_pdf_file, convert_word_to_pdf, delete_file, delete_directory, wrap, h]

/-- C1 witness: reading the structure of a missing file raises inside the
body, and the handler maps it to an error dict. -/
theorem claim_C1_witness :
    toolBody envW (.readStructure "/x") stEmpty =
      (.error "FileNotFoundError: /x", stEmpty) ∧
    ((runTool envW (.readStructure "/x") stEmpty).1.success = false ∧
     (runTool envW (.readStructure "/x") stEmpty).1.message.isSome ∧
     (runTool envW (.readStructure "/x") stEmpty).2 = stEmpty) :=
  ⟨rfl, claim_C1_exceptions_mapped envW (.readStructure "/x") stEmpty
    "FileNotFoundError: /x" stEmpty rfl⟩

/-- C7: the handlers are stateless and independent: a tool call is a pure
function of its arguments and the filesystem state, so whenever two call
histories lead to the same state, a subsequent identical call returns the
identical result dict and final state. -/
theorem claim_C7_stateless (env : Env) (c : ToolCall) (hist1 hist2 : List ToolCall)
    (s1 s2 : St) (h : execList env hist1 s1 = execList env hist2 s2) :
    runTool env c (execList env hist1 s1) = runTool env c (execList env hist2 s2) := by
  rw [h]

/-- C7 witness: an empty history and a history whose single call leaves the
filesystem unchanged give a delete_file call identical results. -/
theorem claim_C7_witness :
    execList envW [ToolCall.deleteFile "/x" "no"] stEmpty = execList envW [] stEmpty ∧
    runTool envW (.readStructure "/x") (execList envW [ToolCall.deleteFile "/x" "no"] stEmpty) =
      runTool envW (.readStructure "/x") (execList envW [] stEmpty) :=
  ⟨rfl, claim_C7_stateless envW (.readStructure "/x")
    [ToolCall.deleteFile "/x" "no"] [] stEmpty stEmpty rfl⟩

theorem find_fsSet (fs : List (String × Entry)) (p : String) (e : Entry) :
    (fsSet fs p e).find? (fun kv => kv.1 == p) = some (p, e) := by
  induction fs with
  | nil => simp [fsSet, List.find?]
  | cons kv rest ih =>
    by_cases h : kv.1 = p
    · simp [fsSet, h, List.find?]
    · simp only [fsSet]
      rw [if_neg (by simpa using h)]
      rw [List.find?_cons_of_neg _ (by simpa using h)]
      exact ih

theorem find_fsSet_ne (fs : List (String × Entry)) (p q : String) (e : Entry)
    (hpq : p ≠ q) :
    (fsSet fs q e).find? (fun kv => kv.1 == p) = fs.find? (fun kv => kv.1 == p) := by
  have hqp : (q == p) = false := beq_eq_false_iff_ne.mpr (Ne.symm hpq)
  induction fs with
  | nil => simp [fsSet, List.find?, hqp]
  | cons kv rest ih =>
    by_cases h : kv.1 = q
    · subst h
      have hkp : (kv.1 == p) = false := beq_eq_false_iff_ne.mpr (fun hh => hpq hh.symm)
      simp [fsSet, List.find?, hqp, hkp]
    · simp only [fsSet]
      rw [if_neg (by simpa using h)]
      by_cases h2 : kv.1 = p
      · simp [List.find?, h2]
      · rw [List.find?_cons_of_neg _ (by simpa using h2),
            List.find?_cons_of_neg _ (by simpa using h2)]
        exact ih

theorem entryAt_fsSet_same (fs tr : List (String × Entry)) (p : String) (e : Entry) :
    St.entryAt { fs := fsSet fs p e, trash := tr } p = some e := by
  simp [St.entryAt, find_fsSet]

theorem entryAt_fsSet_ne (fs tr : List (String × Entry)) (p q : String) (e : Entry)
    (hpq : p ≠ q) :
    St.entryAt { fs := fsSet fs q e, trash := tr } p =
      St.entryAt { fs := fs, trash := tr } p := by
  simp [St.entryAt, find_fsSet_ne fs p q e hpq]

/-- C3: delete_file on an existing regular file: confirm CORBEILLE moves
the file into the trash and reports method "trash"; confirm SUPPRESSION
DÉFINITIVE removes it without touching the trash and reports method
"permanent"; any other confirm leaves the state unchanged and reports
success false / deleted false. -/
theorem claim_C3_delete_file (filepath confirm : String) (st : St) (fc : FileContent)
    (hfc : st.entryAt filepath = some (.file fc)) :
    (confirm = "CORBEILLE" →
      delete_file filepath confirm st =
        ({ success := true,
           message := some (s!"Envoye a la corbeille: {basenameOf filepath} ({fcSize fc} bytes) - RECUPERABLE"),
           filepath := some filepath, deleted := some true, method := some "trash" },
         { fs := fsRemove st.fs filepath, trash := st.trash ++ [(filepath, .file fc)] })) ∧
    (confirm = "SUPPRESSION DÉFINITIVE" →
      delete_file filepath confirm st =
        ({ success := true,
           message := some (s!"Supprime definitivement: {basenameOf filepath} ({fcSize fc} bytes) - NON RECUPERABLE"),
           filepath := some filepath, deleted := some true, method := some "permanent" },
         { fs := fsRemove st.fs filepath, trash := st.trash })) ∧
    (confirm ≠ "CORBEILLE" → confirm ≠ "SUPPRESSION DÉFINITIVE" →
      delete_file filepath confirm st =
        ({ success := false, message := some confirmRejectMsg,
           filepath := some filepath, deleted := some false }, st)) := by
  refine ⟨?_, ?_, ?_⟩
  · intro h
    subst h
    simp [delete_file, wrap, delete_file_body, St.exists', St.isDir, hfc, sendToTrash]
  · intro h
    subst h
    simp [delete_file, wrap, delete_file_body, St.exists', St.isDir, hfc, osRemove]
  · intro h1 h2
    have hb1 : (confirm == "CORBEILLE") = false := beq_eq_false_iff_ne.mpr h1
    have hb2 : (confirm == "SUPPRESSION DÉFINITIVE") = false := beq_eq_false_iff_ne.mpr h2
    simp [delete_file, wrap, delete_file_body, hb1, hb2]

/-- C3 witness: trashing a concrete file. -/
theorem claim_C3_witness :
    stFileW.entryAt pathA = some (.file fcA) ∧
    delete_file pathA "CORBEILLE" stFileW =
      ({ success := true,
         message := some (s!"Envoye a la corbeille: {basenameOf pathA} ({fcSize fcA} bytes) - RECUPERABLE"),
         filepath := some pathA, deleted := some true, method := some "trash" },
       { fs := fsRemove stFileW.fs pathA, trash := stFileW.trash ++ [(pathA, .file fcA)] }) :=
  ⟨rfl, (claim_C3_delete_file pathA "CORBEILLE" stFileW fcA rfl).1 rfl⟩

/-- C10 counterexample: on a nonempty directory with an invalid confirm
value, delete_directory answers with the confirm-rejection message and no
contents listing, not the "Directory not empty" report the claim promises
for every confirm value. -/
theorem claim_C10_counterexample :
    stDirW.isDir "/d" = true ∧ listdir stDirW "/d" = ["x"] ∧
    (delete_directory "/d" "autre" stDirW).1.message ≠
      some "Directory not empty (1 items). Delete contents first." ∧
    (delete_directory "/d" "autre" stDirW).1.contents = none :=
  ⟨rfl, rfl, by decide, rfl⟩

/-- C10 (amended): delete_directory on an existing nonempty directory
always reports success false / deleted false and leaves the state
unchanged, for every confirm value; the "Directory not empty" message with
the first ten entries is returned when confirm is one of the two accepted
confirmation strings (an invalid confirm is rejected with the
confirm-parameter message instead). -/
theorem claim_C10_amended (dirpath confirm : String) (st : St)
    (hdir : st.isDir dirpath = true) (hne : listdir st dirpath ≠ []) :
    (delete_directory dirpath confirm st).1.success = false ∧
    (delete_directory dirpath confirm st).1.deleted = some false ∧
    (delete_directory dirpath confirm st).2 = st ∧
    ((confirm = "CORBEILLE" ∨ confirm = "SUPPRESSION DÉFINITIVE") →
      (delete_directory dirpath confirm st).1.message =
        some (s!"Directory not empty ({(listdir st dirpath).length} items). Delete contents first.") ∧
      (delete_directory dirpath confirm st).1.contents =
        some ((listdir st dirpath).take 10)) := by
  have hex : st.exists' dirpath = true := by
    unfold St.isDir at hdir
    unfold St.exists'
    rcases h : st.entryAt dirpath with _ | e
    · rw [h] at hdir; simp at hdir
    · simp
  have hlist : (listdir st dirpath).isEmpty = false := by
    cases h : listdir st dirpath with
    | nil => exact absurd h hne
    | cons a l => simp [h]
  by_cases hc : confirm = "CORBEILLE" ∨ confirm = "SUPPRESSION DÉFINITIVE"
  · rcases hc with h | h <;> subst h <;>
      simp [delete_directory, wrap, delete_directory_body, hex, hdir, hlist, hne]
  · push_neg at hc
    have hb1 : (confirm == "CORBEILLE") = false := beq_eq_false_iff_ne.mpr hc.1
    have hb2 : (confirm == "SUPPRESSION DÉFINITIVE") = false := beq_eq_false_iff_ne.mpr hc.2
    refine ⟨?_, ?_, ?_, ?_⟩
    · simp [delete_directory, wrap, delete_directory_body, hb1, hb2]
    · simp [delete_directory, wrap, delete_directory_body, hb1, hb2]
    · simp [delete_directory, wrap, delete_directory_body, hb1, hb2]
    · intro hor
      rcases hor with h | h
      · exact absurd h hc.1
      · exact absurd h hc.2

/-- C10 witness: the amended statement at a concrete nonempty directory
with a valid confirm value. -/
theorem claim_C10_witness :
    stDirW.isDir "/d" = true ∧ listdir stDirW "/d" ≠ [] ∧
    ((delete_directory "/d" "CORBEILLE" stDirW).1.success = false ∧
     (delete_directory "/d" "CORBEILLE" stDirW).1.deleted = some false ∧
     (delete_directory "/d" "CORBEILLE" stDirW).2 = stDirW ∧
     (delete_directory "/d" "CORBEILLE" stDirW).1.message =
       some (s!"Directory not empty ({(listdir stDirW dirD).length} items). Delete contents first.") ∧
     (delete_directory "/d" "CORBEILLE" stDirW).1.contents =
       some ((listdir stDirW "/d").take 10)) := by
  refine ⟨rfl, by decide, ?_⟩
  have h := claim_C10_amended "/d" "CORBEILLE" stDirW rfl (by decide)
  exact ⟨h.1, h.2.1, h.2.2.1, (h.2.2.2 (Or.inl rfl)).1, (h.2.2.2 (Or.inl rfl)).2⟩

theorem osMakedirs_ok {q : String} {st st' : St} {u : Unit}
    (h : osMakedirs q st = (.ok u, st')) :
    st'.trash = st.trash ∧ ∀ x, st'.isFile x = st.isFile x := by
  unfold osMakedirs at h
  simp only [M_bind_apply, M_getSt_apply, M_pure_apply, M_fail_apply, M_setSt_apply] at h
  rcases hq : st.entryAt q with _ | e
  · rw [hq] at h
    simp at h
    subst h
    refine ⟨rfl, fun x => ?_⟩
    by_cases hx : x = q
    · subst hx
      simp [St.isFile, entryAt_fsSet_same, hq]
    · have hne := entryAt_fsSet_ne st.fs st.trash x q .dir hx
      simp only [St.isFile]
      rw [show St.entryAt { fs := fsSet st.fs q Entry.dir, trash := st.trash } x =
            St.entryAt st x from hne]
  · rw [hq] at h
    cases e with
    | file c => simp at h
    | dir =>
      simp at h
      subst h
      exact ⟨rfl, fun x => rfl⟩

theorem osMakedirs_error {q : String} {st st' : St} {e : String}
    (h : osMakedirs q st = (.error e, st')) : st' = st := by
  unfold osMakedirs at h
  simp only [M_bind_apply, M_getSt_apply, M_pure_apply, M_fail_apply, M_setSt_apply] at h
  rcases hq : st.entryAt q with _ | en
  · rw [hq] at h; simp at h
  · rw [hq] at h
    cases en with
    | file c => simp at h; exact h.2.symm
    | dir => simp at h

theorem saveFile_ok {p : String} {c : FileContent} {st st' : St} {u : Unit}
    (h : saveFile p c st = (.ok u, st')) :
    st' = { fs := fsSet st.fs p (.file c), trash := st.trash } := by
  unfold saveFile at h
  simp only [M_bind_apply, M_getSt_apply, M_pure_apply, M_fail_apply, M_setSt_apply] at h
  rcases hq : st.entryAt p with _ | en
  · rw [hq] at h; simp at h; exact h.symm
  · rw [hq] at h
    cases en with
    | file c2 => simp at h; exact h.symm
    | dir => simp at h

theorem saveFile_error {p : String} {c : FileContent} {st st' : St} {e : String}
    (h : saveFile p c st = (.error e, st')) :
    st' = st ∧ st.entryAt p = some .dir := by
  unfold saveFile at h
  simp only [M_bind_apply, M_getSt_apply, M_pure_apply, M_fail_apply, M_setSt_apply] at h
  rcases hq : st.entryAt p with _ | en
  · rw [hq] at h; simp at h
  · rw [hq] at h
    cases en with
    | file c2 => simp at h
    | dir => simp at h; exact ⟨h.2.symm, rfl⟩

theorem isFile_save {p : String} {c : FileContent} (fs tr : List (String × Entry)) :
    St.isFile { fs := fsSet fs p (.file c), trash := tr } p = true := by
  simp [St.isFile, entryAt_fsSet_same]


theorem c2_createWord (fp content : String) (st : St) :
    ((create_word_document fp content st).1.success = true →
      (create_word_document fp content st).1.filepath = some fp ∧
      (create_word_document fp content st).2.isFile fp = true) ∧
    ((create_word_document fp content st).1.success = false →
      (create_word_document fp content st).1.filepath = none ∧
      (create_word_document fp content st).2.isFile fp = st.isFile fp) := by
  unfold create_word_document wrap create_word_document_body
  simp only [M_bind_apply, M_pure_apply]
  rcases hmk : osMakedirs (dirnameOf fp) st with ⟨r1, s1⟩
  cases r1 with
  | ok u =>
    rcases hsv : saveFile fp (.docx { blankDoc with bodyParas := [content] }) s1 with ⟨r2, s2⟩
    cases r2 with
    | ok u2 =>
      simp only [hmk, hsv]
      constructor
      · intro _
        refine ⟨by trivial, ?_⟩
        rw [saveFile_ok hsv]
        exact isFile_save s1.fs s1.trash
      · intro hfalse
        simp at hfalse
    | error e2 =>
      simp only [hmk, hsv]
      constructor
      · intro htrue; simp at htrue
      · intro _
        refine ⟨by trivial, ?_⟩
        rw [(saveFile_error hsv).1]
        exact (osMakedirs_ok hmk).2 fp
  | error e1 =>
    simp only [hmk]
    constructor
    · intro htrue; simp at htrue
    · intro _
      refine ⟨by trivial, ?_⟩
      rw [osMakedirs_error hmk]


theorem openTextRead_state {p : String} {st st' : St} {r : Except String String}
    (h : openTextRead p st = (r, st')) : st' = st := by
  unfold openTextRead at h
  simp only [M_bind_apply, M_getSt_apply, M_pure_apply, M_fail_apply] at h
  rcases hq : st.entryAt p with _ | en
  · rw [hq] at h; simp at h; exact h.2.symm
  · rw [hq] at h
    cases en with
    | file c => cases c <;> simp at h <;> exact h.2.symm
    | dir => simp at h; exact h.2.symm

theorem openDocx_state {p : String} {st st' : St} {r : Except String WordDoc}
    (h : openDocx p st = (r, st')) : st' = st := by
  unfold openDocx at h
  simp only [M_bind_apply, M_getSt_apply, M_pure_apply, M_fail_apply] at h
  rcases hq : st.entryAt p with _ | en
  · rw [hq] at h; simp at h; exact h.2.symm
  · rw [hq] at h
    cases en with
    | file c => cases c <;> simp at h <;> exact h.2.symm
    | dir => simp at h; exact h.2.symm

theorem openZipDocx_state {p : String} {st st' : St} {r : Except String WordDoc}
    (h : openZipDocx p st = (r, st')) : st' = st := by
  unfold openZipDocx at h
  simp only [M_bind_apply, M_getSt_apply, M_pure_apply, M_fail_apply] at h
  rcases hq : st.entryAt p with _ | en
  · rw [hq] at h; simp at h; exact h.2.symm
  · rw [hq] at h
    cases en with
    | file c => cases c <;> simp at h <;> exact h.2.symm
    | dir => simp at h; exact h.2.symm

theorem loadWorkbook_state {p : String} {st st' : St} {r : Except String Workbook}
    (h : loadWorkbook p st = (r, st')) : st' = st := by
  unfold loadWorkbook at h
  simp only [M_bind_apply, M_getSt_apply, M_pure_apply, M_fail_apply] at h
  rcases hq : st.entryAt p with _ | en
  · rw [hq] at h; simp at h; exact h.2.symm
  · rw [hq] at h
    cases en with
    | file c => cases c <;> simp at h <;> exact h.2.symm
    | dir => simp at h; exact h.2.symm


theorem c2_txtToWord (sp tp : String) (st : St) :
    ((convert_txt_to_word sp tp st).1.success = true →
      (convert_txt_to_word sp tp st).1.filepath = some tp ∧
      (convert_txt_to_word sp tp st).2.isFile tp = true) ∧
    ((convert_txt_to_word sp tp st).1.success = false →
      (convert_txt_to_word sp tp st).1.filepath = none ∧
      (convert_txt_to_word sp tp st).2.isFile tp = st.isFile tp) ∧
    (st.exists' sp = false → (convert_txt_to_word sp tp st).1.success = false) := by
  unfold convert_txt_to_word wrap convert_txt_to_word_body
  simp only [M_bind_apply, M_pure_apply, M_getSt_apply]
  cases hex : st.exists' sp with
  | false => simp [hex]
  | true =>
    rcases hrd : openTextRead sp st with ⟨r1, s1⟩
    have hs1 := openTextRead_state hrd
    subst hs1
    cases r1 with
    | error e1 => simp [hex, hrd]
    | ok text =>
      simp [hex, hrd]
      split
      · rename_i u s2 hmk
        split at hmk
        · rename_i a s1a hmk2
          split at hmk
          · rename_i a2 s2a hsv
            cases hmk
            simp [saveFile_ok hsv, isFile_save]
          · rename_i e3 s3 hsv
            simp at hmk
        · rename_i e2 s2a hmk2
          simp at hmk
      · rename_i e s2 hmk
        split at hmk
        · rename_i a s1a hmk2
          split at hmk
          · rename_i a2 s2a hsv
            simp at hmk
          · rename_i e3 s3 hsv
            cases hmk
            simp [(saveFile_error hsv).1, (osMakedirs_ok hmk2).2 tp]
        · rename_i e2 s2a hmk2
          cases hmk
          simp [osMakedirs_error hmk2]


theorem c2_createPdf (fp content : String) (st : St) :
    ((create_pdf_file fp content st).1.success = true →
      (create_pdf_file fp content st).1.filepath = some fp ∧
      (create_pdf_file fp content st).2.isFile fp = true) ∧
    ((create_pdf_file fp content st).1.success = false →
      (create_pdf_file fp content st).1.filepath = none ∧
      (create_pdf_file fp content st).2.isFile fp = st.isFile fp) := by
  unfold create_pdf_file wrap create_pdf_file_body
  simp only [M_bind_apply, M_pure_apply]
  rcases hmk : osMakedirs (dirnameOf fp) st with ⟨r1, s1⟩
  cases r1 with
  | ok u =>
    rcases hsv : saveFile fp (.pdf (.text (content.splitOn "\n"))) s1 with ⟨r2, s2⟩
    cases r2 with
    | ok u2 => simp [hmk, hsv, saveFile_ok hsv, isFile_save]
    | error e2 => simp [hmk, hsv, (saveFile_error hsv).1, (osMakedirs_ok hmk).2 fp]
  | error e1 => simp [hmk, osMakedirs_error hmk]

theorem c2_createExcel (env : Env) (fp content : String) (st : St) :
    ((create_excel_file env fp content st).1.success = true →
      (create_excel_file env fp content st).1.filepath = some fp ∧
      (create_excel_file env fp content st).2.isFile fp = true) ∧
    ((create_excel_file env fp content st).1.success = false →
      (create_excel_file env fp content st).1.filepath = none ∧
      (create_excel_file env fp content st).2.isFile fp = st.isFile fp) := by
  unfold create_excel_file wrap create_excel_file_body
  simp only [M_bind_apply, M_pure_apply]
  rcases hjp : env.jsonParse content with _ | jv
  · simp only [M_pure_apply]
    rcases hmk : osMakedirs (dirnameOf fp) st with ⟨r1, s1⟩
    cases r1 with
    | ok u =>
      rcases hsv : saveFile fp (.xlsx (wbOfDf (Df.ofGrid (csvFallbackGrid content)))) s1
        with ⟨r2, s2⟩
      cases r2 with
      | ok u2 => simp [hmk, hsv, saveFile_ok hsv, isFile_save]
      | error e2 => simp [hmk, hsv, (saveFile_error hsv).1, (osMakedirs_ok hmk).2 fp]
    | error e1 => simp [hmk, osMakedirs_error hmk]
  · simp only [M_liftE_apply]
    cases hdf : dfOfJval jv with
    | error e0 => simp
    | ok df =>
      rcases hmk : osMakedirs (dirnameOf fp) st with ⟨r1, s1⟩
      cases r1 with
      | ok u =>
        rcases hsv : saveFile fp (.xlsx (wbOfDf df)) s1 with ⟨r2, s2⟩
        cases r2 with
        | ok u2 => simp [hmk, hsv, saveFile_ok hsv, isFile_save]
        | error e2 => simp [hmk, hsv, (saveFile_error hsv).1, (osMakedirs_ok hmk).2 fp]
      | error e1 => simp [hmk, osMakedirs_error hmk]


theorem c2_csvToExcel (sp tp : String) (st : St) :
    ((convert_csv_to_excel sp tp st).1.success = true →
      (convert_csv_to_excel sp tp st).1.filepath = some tp ∧
      (convert_csv_to_excel sp tp st).2.isFile tp = true) ∧
    ((convert_csv_to_excel sp tp st).1.success = false →
      (convert_csv_to_excel sp tp st).1.filepath = none ∧
      (convert_csv_to_excel sp tp st).2.isFile tp = st.isFile tp) ∧
    (st.exists' sp = false → (convert_csv_to_excel sp tp st).1.success = false) := by
  unfold convert_csv_to_excel wrap convert_csv_to_excel_body
  simp only [M_bind_apply, M_pure_apply, M_getSt_apply]
  cases hex : st.exists' sp with
  | false => simp [hex]
  | true =>
    rcases hrd : openTextRead sp st with ⟨r1, s1⟩
    have hs1 := openTextRead_state hrd
    subst hs1
    cases r1 with
    | error e1 => simp [hex, hrd]
    | ok text =>
      simp [hex, hrd]
      cases hcsv : readCsv text with
      | error e0 => simp [hex, hrd, hcsv]
      | ok df =>
        simp [hex, hrd, hcsv]
        rcases hmk : osMakedirs (dirnameOf tp) s1 with ⟨r2, s2⟩
        cases r2 with
        | ok u =>
          rcases hsv : saveFile tp (.xlsx (wbOfDf df)) s2 with ⟨r3, s3⟩
          cases r3 with
          | ok u2 => simp [hmk, hsv, saveFile_ok hsv, isFile_save]
          | error e3 => simp [hmk, hsv, (saveFile_error hsv).1, (osMakedirs_ok hmk).2 tp]
        | error e2 => simp [hmk, osMakedirs_error hmk]

/-- C2: each creation/conversion tool that writes a file reports it:
a success dict carries filepath = target and a regular file exists at the
target afterwards; a failure dict carries filepath = none and whether a
regular file exists at the target is unchanged (no target file is
created); and a nonexistent source path makes a conversion fail. -/
theorem claim_C2_create_and_convert :
    (∀ fp content st,
      ((create_word_document fp content st).1.success = true →
        (create_word_document fp content st).1.filepath = some fp ∧
        (create_word_document fp content st).2.isFile fp = true) ∧
      ((create_word_document fp content st).1.success = false →
        (create_word_document fp content st).1.filepath = none ∧
        (create_word_document fp content st).2.isFile fp = st.isFile fp)) ∧
    (∀ sp tp st,
      ((convert_txt_to_word sp tp st).1.success = true →
        (convert_txt_to_word sp tp st).1.filepath = some tp ∧
        (convert_txt_to_word sp tp st).2.isFile tp = true) ∧
      ((convert_txt_to_word sp tp st).1.success = false →
        (convert_txt_to_word sp tp st).1.filepath = none ∧
        (convert_txt_to_word sp tp st).2.isFile tp = st.isFile tp) ∧
      (st.exists' sp = false → (convert_txt_to_word sp tp st).1.success = false)) ∧
    (∀ env fp content st,
      ((create_excel_file env fp content st).1.success = true →
        (create_excel_file env fp content st).1.filepath = some fp ∧
        (create_excel_file env fp content st).2.isFile fp = true) ∧
      ((create_excel_file env fp content st).1.success = false →
        (create_excel_file env fp content st).1.filepath = none ∧
        (create_excel_file env fp content st).2.isFile fp = st.isFile fp)) ∧
    (∀ sp tp st,
      ((convert_csv_to_excel sp tp st).1.success = true →
        (convert_csv_to_excel sp tp st).1.filepath = some tp ∧
        (convert_csv_to_excel sp tp st).2.isFile tp = true) ∧
      ((convert_csv_to_excel sp tp st).1.success = false →
        (convert_csv_to_excel sp tp st).1.filepath = none ∧
        (convert_csv_to_excel sp tp st).2.isFile tp = st.isFile tp) ∧
      (st.exists' sp = false → (convert_csv_to_excel sp tp st).1.success = false)) ∧
    (∀ fp content st,
      ((create_pdf_file fp content st).1.success = true →
        (create_pdf_file fp content st).1.filepath = some fp ∧
        (create_pdf_file fp content st).2.isFile fp = true) ∧
      ((create_pdf_file fp content st).1.success = false →
        (create_pdf_file fp content st).1.filepath = none ∧
        (create_pdf_file fp content st).2.isFile fp = st.isFile fp)) :=
  ⟨c2_createWord, c2_txtToWord, c2_createExcel, c2_csvToExcel, c2_createPdf⟩

/-- C2 witness: a concrete successful creation and a concrete failed
conversion from a missing source. -/
theorem claim_C2_witness :
    ((create_word_document "/out/w.docx" "hello" stEmpty).1.success = true) ∧
    ((create_word_document "/out/w.docx" "hello" stEmpty).1.filepath = some "/out/w.docx" ∧
     (create_word_document "/out/w.docx" "hello" stEmpty).2.isFile "/out/w.docx" = true) ∧
    ( stEmpty.exists' "/nosrc.txt" = false) ∧
    ((convert_txt_to_word "/nosrc.txt" "/t.docx" stEmpty).1.success = false) :=
  ⟨rfl, (claim_C2_create_and_convert.1 "/out/w.docx" "hello" stEmpty).1 rfl, rfl,
   (claim_C2_create_and_convert.2.1 "/nosrc.txt" "/t.docx" stEmpty).2.2 rfl⟩

@[simp]
theorem exc_bind_ok {α β : Type} (a : α) (f : α → Except String β) :
    (Except.ok a >>= f) = f a := rfl

@[simp]
theorem exc_bind_error {α β : Type} (e : String) (f : α → Except String β) :
    ((Except.error e : Except String α) >>= f) = .error e := rfl

@[simp]
theorem exc_pure_eq {α : Type} (a : α) : (pure a : Except String α) = .ok a := rfl

/-- Folding over an appended operation list splits at the boundary. -/
theorem exFoldM_append {α β : Type} (f : β → α → Except String β) (init : β)
    (l1 l2 : List α) :
    exFoldM f init (l1 ++ l2) =
      match exFoldM f init l1 with
      | .ok b => exFoldM f b l2
      | .error e => .error e := by
  induction l1 generalizing init with
  | nil => simp [exFoldM]
  | cons x xs ih =>
    simp only [List.cons_append, exFoldM]
    cases hf : f init x with
    | ok b => simp [hf, ih]
    | error e => simp [hf]

/-- An edit_paragraph or delete_paragraph operation whose index is negative
or at least the current paragraph count changes nothing. -/
theorem applyWordOp_oob (d : WordDoc) (op : PyDict) (ty : String) (idx : Int)
    (hty : dictGet op "type" = some (.s ty))
    (htyp : ty = "edit_paragraph" ∨ ty = "delete_paragraph")
    (hidx : dictGet op "index" = some (.i idx))
    (hoob : idx < 0 ∨ (d.bodyParas.length : Int) ≤ idx) :
    applyWordOp d op = .ok d := by
  have hcond : ¬(0 ≤ idx ∧ idx < (d.bodyParas.length : Int)) := by omega
  rcases htyp with h | h <;> subst h <;>
    simp [applyWordOp, hty, hidx, pyIntLike, hcond]


/-- C8: edit_word_document silently ignores out-of-range paragraph
indices: inserting an edit_paragraph/delete_paragraph operation whose index
is out of range for the document state it meets leaves the whole call
unchanged (the remaining operations still apply), and the call still
succeeds whenever the remaining operations succeed. -/
theorem claim_C8_edit_word_oob (fp : String) (st : St) (doc dmid : WordDoc)
    (pre post : List PyDict) (op : PyDict) (ty : String) (idx : Int)
    (hdoc : st.entryAt fp = some (.file (.docx doc)))
    (hty : dictGet op "type" = some (.s ty))
    (htyp : ty = "edit_paragraph" ∨ ty = "delete_paragraph")
    (hidx : dictGet op "index" = some (.i idx))
    (hpre : exFoldM applyWordOp doc pre = .ok dmid)
    (hoob : idx < 0 ∨ (dmid.bodyParas.length : Int) ≤ idx) :
    edit_word_document fp (pre ++ op :: post) st =
      edit_word_document fp (pre ++ post) st ∧
    (∀ dfin, exFoldM applyWordOp dmid post = .ok dfin →
      (edit_word_document fp (pre ++ op :: post) st).1.success = true) := by
  have hop : applyWordOp dmid op = .ok dmid :=
    applyWordOp_oob dmid op ty idx hty htyp hidx hoob
  have hfold : exFoldM applyWordOp doc (pre ++ op :: post) =
      exFoldM applyWordOp doc (pre ++ post) := by
    rw [exFoldM_append, exFoldM_append, hpre]
    simp only [exFoldM, hop, exc_bind_ok]
  have hex : st.exists' fp = true := by
    unfold St.exists'
    rw [hdoc]
    rfl
  constructor
  · unfold edit_word_document wrap edit_word_document_body
    simp [hex, openDocx, hdoc, hfold]
  · intro dfin hpost
    have hchain : exFoldM applyWordOp doc (pre ++ op :: post) = .ok dfin := by
      rw [hfold, exFoldM_append, hpre]
      simpa using hpost
    unfold edit_word_document wrap edit_word_document_body
    simp [hex, hdoc, hchain, openDocx, saveFile]

/-- C8 witness: a concrete out-of-range edit between other operations is a
no-op and the call still succeeds. -/
theorem claim_C8_witness :
    stDocW.entryAt "/w.docx" = some (.file (.docx docW)) ∧
    dictGet opOob "type" = some (.s "edit_paragraph") ∧
    dictGet opOob "index" = some (.i 5) ∧
    exFoldM applyWordOp docW [] = .ok docW ∧
    ((5 : Int) < 0 ∨ (docW.bodyParas.length : Int) ≤ 5) ∧
    edit_word_document "/w.docx" ([] ++ opOob :: [opAdd]) stDocW =
      edit_word_document "/w.docx" ([] ++ [opAdd]) stDocW ∧
    (edit_word_document "/w.docx" ([] ++ opOob :: [opAdd]) stDocW).1.success = true := by
  have h := claim_C8_edit_word_oob "/w.docx" stDocW docW docW [] [opAdd] opOob
    "edit_paragraph" 5 rfl rfl (Or.inl rfl) rfl rfl (Or.inr (by decide))
  exact ⟨rfl, rfl, rfl, rfl, Or.inr (by decide), h.1,
    h.2 { blankDoc with bodyParas := ["x", "q"] } rfl⟩


/-- A successful exMapM maps positions to successful elementwise runs. -/
theorem exMapM_ok_get {α β : Type} (f : α → Except String β) (l : List α)
    (ys : List β) (h : exMapM f l = .ok ys) :
    ∀ k x, l.get? k = some x → ∃ y, ys.get? k = some y ∧ f x = .ok y := by
  induction l generalizing ys with
  | nil => intro k x hk; simp at hk
  | cons a rest ih =>
    intro k x hk
    unfold exMapM at h
    cases hf : f a with
    | error e => rw [hf] at h; simp at h
    | ok b =>
      rw [hf] at h
      simp only [exc_bind_ok] at h
      cases hrest : exMapM f rest with
      | error e => rw [hrest] at h; simp at h
      | ok bs =>
        rw [hrest] at h
        simp at h
        subst h
        cases k with
        | zero =>
          simp at hk
          subst hk
          exact ⟨b, rfl, hf⟩
        | succ k2 =>
          simp only [List.get?] at hk ⊢
          exact ih bs hrest k2 x hk

/-- Indexing an enumFrom list. -/
theorem enumFrom_get? {α : Type} (l : List α) (n k : Nat) :
    (List.enumFrom n l).get? k = (l.get? k).map (fun x => (n + k, x)) := by
  induction l generalizing n k with
  | nil => simp
  | cons a rest ih =>
    cases k with
    | zero => simp
    | succ k2 =>
      simp only [List.enumFrom, List.get?]
      rw [ih (n + 1) k2]
      have heq : n + 1 + k2 = n + (k2 + 1) := by omega
      rw [heq]

/-- Indexing an enumerated list. -/
theorem enum_get? {α : Type} (l : List α) (k : Nat) :
    (l.enum).get? k = (l.get? k).map (fun x => (k, x)) := by
  have h0 := enumFrom_get? l 0 k
  simpa only [List.enum, Nat.zero_add] using h0

/-- Reading back a grid whose attributes are all integers yields exactly
those integers. -/
theorem exMapM_readWAttr_num (ws : List Int) :
    exMapM readWAttr (ws.map WAttr.num) = .ok ws := by
  induction ws with
  | nil => simp [exMapM]
  | cons w rest ih => simp [exMapM, readWAttr, ih]

/-- Inversion of a successful per-table analysis: the reported row count,
row-height flag, and (for an all-integer grid) the reported widths. -/
theorem readTableInfo_ok_elim (k : Nat) (tbl : Tbl) (ti : TableInfo)
    (h : readTableInfo k tbl = .ok ti) :
    ti.row_count = tbl.rows.length ∧
    ti.has_explicit_row_heights = tbl.rows.any (fun r => r.trH.isSome) ∧
    ∀ ws, tbl.grid = some (List.map WAttr.num ws) →
      ti.column_widths = ws ∧ ti.column_widths_source = some "tblGrid" := by
  unfold readTableInfo at h
  cases hg : tbl.grid with
  | none =>
    rw [hg] at h
    simp only [M_pure_apply, exc_pure_eq, exc_bind_ok] at h
    cases hrows : exMapM readRowPair tbl.rows.enum with
    | error e => rw [hrows] at h; simp at h
    | ok rowRes =>
      rw [hrows] at h
      simp at h
      subst h
      refine ⟨rfl, rfl, fun ws hws => ?_⟩
      simp at hws
  | some g =>
    rw [hg] at h
    simp only [exc_pure_eq, exc_bind_ok] at h
    cases hgw : exMapM readWAttr g with
    | error e => rw [hgw] at h; simp at h
    | ok gws =>
      rw [hgw] at h
      simp only [exc_bind_ok, exc_pure_eq] at h
      cases hrows : exMapM readRowPair tbl.rows.enum with
      | error e => rw [hrows] at h; simp at h
      | ok rowRes =>
        rw [hrows] at h
        simp at h
        subst h
        refine ⟨rfl, rfl, fun ws hws => ?_⟩
        have hgeq : g = List.map WAttr.num ws := by injection hws
        subst hgeq
        rw [exMapM_readWAttr_num ws] at hgw
        have hgg : gws = ws := by injection hgw with hh; exact hh.symm
        subst hgg
        exact ⟨rfl, rfl⟩

/-- C4: read_word_document_structure is direct attribute extraction: for a
readable document (the zip opens and the whole analysis succeeds), each
reported table carries row_count equal to its number of w:tr rows,
has_explicit_row_heights exactly when some row has a w:trHeight, and, when
its w:tblGrid carries integer w:w attributes, column_widths equal to that
attribute list in order with column_widths_source = "tblGrid". -/
theorem claim_C4_read_structure (fp : String) (st : St) (d : WordDoc)
    (tis : List TableInfo)
    (hdoc : st.entryAt fp = some (.file (.docx d)))
    (hread : exMapM (fun it => readTableInfo it.1 it.2) d.tables.enum = .ok tis) :
    (read_word_document_structure fp st).1.success = true ∧
    (read_word_document_structure fp st).1.tables = some tis ∧
    ∀ k tbl ti, d.tables.get? k = some tbl → tis.get? k = some ti →
      ti.row_count = tbl.rows.length ∧
      ti.has_explicit_row_heights = tbl.rows.any (fun r => r.trH.isSome) ∧
      ∀ ws, tbl.grid = some (List.map WAttr.num ws) →
        ti.column_widths = ws ∧ ti.column_widths_source = some "tblGrid" := by
  refine ⟨?_, ?_, ?_⟩
  · unfold read_word_document_structure wrap read_word_document_structure_body
    simp [openZipDocx, hdoc, hread]
  · unfold read_word_document_structure wrap read_word_document_structure_body
    simp [openZipDocx, hdoc, hread]
  · intro k tbl ti hk hti
    have henum : d.tables.enum.get? k = some (k, tbl) := by
      rw [enum_get?, hk]
      rfl
    obtain ⟨y, hy, hready⟩ := exMapM_ok_get _ _ _ hread k (k, tbl) henum
    have hyti : y = ti := by
      rw [hy] at hti
      injection hti
    rw [hyti] at hready
    obtain ⟨h1, h2, h3⟩ := readTableInfo_ok_elim k tbl ti hready
    exact ⟨h1, h2, h3⟩

/-- exMapM of an everywhere-successful function is the plain map. -/
theorem exMapM_ok_map {α β : Type} (f : α → Except String β) (g : α → β) (l : List α)
    (h : ∀ x ∈ l, f x = .ok (g x)) : exMapM f l = .ok (l.map g) := by
  induction l with
  | nil => simp [exMapM]
  | cons a rest ih =>
    simp only [exMapM, h a (by simp), exc_bind_ok]
    rw [ih (fun x hx => h x (by simp [hx]))]
    simp

/-- In-range reported-table indexing never raises. -/
theorem listGetE_getD {α : Type} (l : List α) (i : Nat) (d : α) (hi : i < l.length) :
    listGetE l i = .ok (l.getD i d) := by
  unfold listGetE
  rw [List.getD_eq_get?]
  cases hg : l.get? i with
  | none => rw [List.get?_eq_none] at hg; omega
  | some x => simp

/-- A per-table difference list is empty exactly when the three compared
properties agree. -/
theorem tableDiffList_nil_iff (t1 t2 : TableInfo) :
    (tableDiffList t1 t2).isEmpty = true ↔
      (t1.column_widths = t2.column_widths ∧
       t1.has_explicit_row_heights = t2.has_explicit_row_heights ∧
       t1.row_count = t2.row_count) := by
  unfold tableDiffList
  by_cases h1 : t1.column_widths = t2.column_widths <;>
    by_cases h2 : t1.has_explicit_row_heights = t2.has_explicit_row_heights <;>
      by_cases h3 : t1.row_count = t2.row_count <;>
        simp [h1, h2, h3]

/-- On fully indexable table lists the difference computation succeeds and
equals its pure form. -/
theorem computeDiffs_ok (ts1 ts2 : List TableInfo) :
    computeDiffs ts1.length ts2.length ts1 ts2 = .ok (pureDiffs ts1 ts2) := by
  unfold computeDiffs pureDiffs
  rw [exMapM_ok_map _
    (fun i => (i, tableDiffList (ts1.getD i dummyTI) (ts2.getD i dummyTI)))]
  · simp
  · intro i hi
    rw [List.mem_range] at hi
    rw [listGetE_getD ts1 i dummyTI (by omega), listGetE_getD ts2 i dummyTI (by omega)]
    simp

/-- The difference list is empty exactly when the counts agree and every
common index agrees on the three compared properties. -/
theorem pureDiffs_isEmpty_iff (ts1 ts2 : List TableInfo) :
    (pureDiffs ts1 ts2).isEmpty = true ↔
      (ts1.length = ts2.length ∧
       ∀ i < min ts1.length ts2.length,
         (ts1.getD i dummyTI).column_widths = (ts2.getD i dummyTI).column_widths ∧
         (ts1.getD i dummyTI).has_explicit_row_heights =
           (ts2.getD i dummyTI).has_explicit_row_heights ∧
         (ts1.getD i dummyTI).row_count = (ts2.getD i dummyTI).row_count) := by
  unfold pureDiffs
  rw [List.isEmpty_iff, List.append_eq_nil, List.filterMap_eq_nil]
  constructor
  · rintro ⟨hbase, hfm⟩
    have hlen : ts1.length = ts2.length := by
      by_cases hll : ts1.length = ts2.length
      · exact hll
      · rw [if_pos hll] at hbase
        simp at hbase
    refine ⟨hlen, fun i hi => ?_⟩
    have hmem : (i, tableDiffList (ts1.getD i dummyTI) (ts2.getD i dummyTI)) ∈
        (List.range (min ts1.length ts2.length)).map
          (fun i => (i, tableDiffList (ts1.getD i dummyTI) (ts2.getD i dummyTI))) :=
      List.mem_map_of_mem _ (List.mem_range.mpr hi)
    have hthis := hfm _ hmem
    by_cases he : (tableDiffList (ts1.getD i dummyTI) (ts2.getD i dummyTI)).isEmpty
    · exact (tableDiffList_nil_iff _ _).mp he
    · rw [if_neg he] at hthis
      simp at hthis
  · rintro ⟨hlen, hall⟩
    constructor
    · rw [if_neg (by simp [hlen])]
    · intro il hil
      rw [List.mem_map] at hil
      obtain ⟨i, hirange, hileq⟩ := hil
      rw [List.mem_range] at hirange
      have hempty : (tableDiffList (ts1.getD i dummyTI) (ts2.getD i dummyTI)).isEmpty :=
        (tableDiffList_nil_iff _ _).mpr (hall i hirange)
      subst hileq
      simp only []
      rw [if_pos hempty]


/-- The full result of a successful read_word_document_structure call. -/
theorem read_ok (fp : String) (st : St) (d : WordDoc) (tis : List TableInfo)
    (hdoc : st.entryAt fp = some (.file (.docx d)))
    (hread : exMapM (fun it => readTableInfo it.1 it.2) d.tables.enum = .ok tis) :
    read_word_document_structure fp st =
      ({ success := true, filepath := some fp, tables_count := some tis.length,
         tables := some tis, paragraphs_count := some (countParas d),
         has_header := some d.hasHeaderPart, has_footer := some d.hasFooterPart }, st) := by
  unfold read_word_document_structure wrap read_word_document_structure_body
  simp [openZipDocx, hdoc, hread]

/-- The full result of a successful compare_word_documents call. -/
theorem compare_ok (p1 p2 : String) (st : St) (d1 d2 : WordDoc)
    (tis1 tis2 : List TableInfo)
    (h1 : st.entryAt p1 = some (.file (.docx d1)))
    (h2 : st.entryAt p2 = some (.file (.docx d2)))
    (hr1 : exMapM (fun it => readTableInfo it.1 it.2) d1.tables.enum = .ok tis1)
    (hr2 : exMapM (fun it => readTableInfo it.1 it.2) d2.tables.enum = .ok tis2) :
    compare_word_documents p1 p2 st =
      ({ success := true, is_identical := some (pureDiffs tis1 tis2).isEmpty,
         filepath1 := some p1, filepath2 := some p2,
         differences := some (pureDiffs tis1 tis2),
         summary := some (if (pureDiffs tis1 tis2).isEmpty
           then "Documents are identical in structure"
           else s!"Found {(pureDiffs tis1 tis2).length} difference(s)") }, st) := by
  have hread1 := read_ok p1 st d1 tis1 h1 hr1
  have hread2 := read_ok p2 st d2 tis2 h2 hr2
  unfold compare_word_documents wrap compare_word_documents_body
  simp only [M_bind_apply, M_getSt_apply, M_pure_apply, M_setSt_apply, hread1, hread2]
  simp only [Bool.not_true, Bool.or_self, Bool.false_eq_true, if_false, reqKey]
  simp only [M_bind_apply, M_liftE_apply, M_pure_apply]
  rw [computeDiffs_ok tis1 tis2]


/-- C5: compare_word_documents reports only on table geometry: for two
readable documents, is_identical is true exactly when the reported table
counts agree and every table index below the smaller count agrees on
column_widths, has_explicit_row_heights and row_count — paragraph texts,
headers and cell contents play no role. -/
theorem claim_C5_compare_geometry (p1 p2 : String) (st : St) (d1 d2 : WordDoc)
    (tis1 tis2 : List TableInfo)
    (h1 : st.entryAt p1 = some (.file (.docx d1)))
    (h2 : st.entryAt p2 = some (.file (.docx d2)))
    (hr1 : exMapM (fun it => readTableInfo it.1 it.2) d1.tables.enum = .ok tis1)
    (hr2 : exMapM (fun it => readTableInfo it.1 it.2) d2.tables.enum = .ok tis2) :
    (compare_word_documents p1 p2 st).1.success = true ∧
    ((compare_word_documents p1 p2 st).1.is_identical = some true ↔
      (tis1.length = tis2.length ∧
       ∀ i < min tis1.length tis2.length,
         (tis1.getD i dummyTI).column_widths = (tis2.getD i dummyTI).column_widths ∧
         (tis1.getD i dummyTI).has_explicit_row_heights =
           (tis2.getD i dummyTI).has_explicit_row_heights ∧
         (tis1.getD i dummyTI).row_count = (tis2.getD i dummyTI).row_count)) := by
  rw [compare_ok p1 p2 st d1 d2 tis1 tis2 h1 h2 hr1 hr2]
  refine ⟨rfl, ?_⟩
  show some ((pureDiffs tis1 tis2).isEmpty) = some true ↔ _
  rw [Option.some.injEq]
  exact pureDiffs_isEmpty_iff tis1 tis2

/-- C4 witness: a concrete one-table document read back exactly. -/
theorem claim_C4_witness :
    stTW.entryAt "/r.docx" = some (.file (.docx docTW)) ∧
    exMapM (fun it => readTableInfo it.1 it.2) docTW.tables.enum = .ok [tiW] ∧
    (read_word_document_structure "/r.docx" stTW).1.success = true ∧
    (read_word_document_structure "/r.docx" stTW).1.tables = some [tiW] ∧
    (tiW.row_count = tblW.rows.length ∧
     tiW.has_explicit_row_heights = tblW.rows.any (fun r => r.trH.isSome) ∧
     (tiW.column_widths = [3000, 4000] ∧ tiW.column_widths_source = some "tblGrid")) := by
  have h := claim_C4_read_structure "/r.docx" stTW docTW [tiW] rfl rfl
  have h3 := h.2.2 0 tblW tiW rfl rfl
  exact ⟨rfl, rfl, h.1, h.2.1, h3.1, h3.2.1, h3.2.2 [3000, 4000] rfl⟩

/-- C5 witness: two documents with different paragraphs and header parts
but identical table geometry compare as identical in structure. -/
theorem claim_C5_witness :
    stCW.entryAt "/r.docx" = some (.file (.docx docTW)) ∧
    stCW.entryAt "/r2.docx" = some (.file (.docx docTW2)) ∧
    docTW.bodyParas ≠ docTW2.bodyParas ∧
    docTW.hasHeaderPart ≠ docTW2.hasHeaderPart ∧
    (compare_word_documents "/r.docx" "/r2.docx" stCW).1.success = true ∧
    (compare_word_documents "/r.docx" "/r2.docx" stCW).1.is_identical = some true := by
  have h := claim_C5_compare_geometry "/r.docx" "/r2.docx" stCW docTW docTW2
    [tiW] [tiW] rfl rfl rfl rfl
  refine ⟨rfl, rfl, by decide, by decide, h.1, ?_⟩
  refine h.2.mpr ⟨rfl, fun i hi => ?_⟩
  have hz : i = 0 := by
    simp at hi
    omega
  subst hz
  exact ⟨rfl, rfl, rfl⟩

/-- os.makedirs succeeds whenever no regular file occupies the path, and
touches no other path. -/
theorem osMakedirs_no_file (q : String) (st : St)
    (hq : ∀ fc, st.entryAt q ≠ some (.file fc)) :
    ∃ st1, osMakedirs q st = (.ok (), st1) ∧ st1.trash = st.trash ∧
      ∀ x, x ≠ q → st1.entryAt x = st.entryAt x := by
  unfold osMakedirs
  simp only [M_bind_apply, M_getSt_apply, M_pure_apply, M_fail_apply, M_setSt_apply]
  rcases hqe : st.entryAt q with _ | en
  · refine ⟨{ fs := fsSet st.fs q .dir, trash := st.trash }, rfl, rfl, fun x hx => ?_⟩
    have h := entryAt_fsSet_ne st.fs st.trash x q .dir hx
    exact h
  · cases en with
    | file c => exact absurd hqe (hq c)
    | dir => exact ⟨st, rfl, rfl, fun x _ => rfl⟩

/-- Saving succeeds whenever no directory occupies the target. -/
theorem saveFile_not_dir (p : String) (c : FileContent) (st : St)
    (hp : st.entryAt p ≠ some Entry.dir) :
    saveFile p c st = (.ok (), { fs := fsSet st.fs p (.file c), trash := st.trash }) := by
  unfold saveFile
  simp only [M_bind_apply, M_getSt_apply, M_pure_apply, M_fail_apply, M_setSt_apply]

/-- C9: create_excel_file never rejects malformed JSON content: when
json.loads fails, the content is split into the comma-separated grid, the
spreadsheet is built from that grid, and (the target being writable) the
call succeeds with that workbook written at the target. -/
theorem claim_C9_excel_fallback (env : Env) (filepath content : String) (st : St)
    (hjson : env.jsonParse content = none)
    (hdirname : ∀ fc, st.entryAt (dirnameOf filepath) ≠ some (.file fc))
    (hne : dirnameOf filepath ≠ filepath)
    (htarget : st.entryAt filepath ≠ some Entry.dir) :
    (create_excel_file env filepath content st).1.success = true ∧
    (create_excel_file env filepath content st).1.filepath = some filepath ∧
    (create_excel_file env filepath content st).2.entryAt filepath =
      some (.file (.xlsx (wbOfDf (Df.ofGrid (csvFallbackGrid content))))) := by
  obtain ⟨st1, hmk, htr, hpres⟩ := osMakedirs_no_file (dirnameOf filepath) st hdirname
  have hp1 : st1.entryAt filepath = st.entryAt filepath :=
    hpres filepath (Ne.symm hne)
  have hsv := saveFile_not_dir filepath
    (.xlsx (wbOfDf (Df.ofGrid (csvFallbackGrid content)))) st1
    (by rw [hp1]; exact htarget)
  unfold create_excel_file wrap create_excel_file_body
  simp only [M_bind_apply, M_pure_apply]
  rw [hjson]
  simp only [M_bind_apply, M_pure_apply, hmk, hsv]
  refine ⟨by trivial, by trivial, ?_⟩
  exact entryAt_fsSet_same st1.fs st1.trash filepath _

/-- C9 witness: a concrete non-JSON comma-separated content string. -/
theorem claim_C9_witness :
    envW.jsonParse csvContentW = none ∧
    dirnameOf "/e.xlsx" ≠ "/e.xlsx" ∧
    ((create_excel_file envW "/e.xlsx" csvContentW stEmpty).1.success = true ∧
     (create_excel_file envW "/e.xlsx" csvContentW stEmpty).1.filepath = some "/e.xlsx" ∧
     (create_excel_file envW "/e.xlsx" csvContentW stEmpty).2.entryAt "/e.xlsx" =
       some (.file (.xlsx (wbOfDf (Df.ofGrid (csvFallbackGrid csvContentW)))))) := by
  have h := claim_C9_excel_fallback envW "/e.xlsx" csvContentW stEmpty rfl
    (fun fc hcontra => by simp [stEmpty, St.entryAt] at hcontra)
    (by decide)
    (fun hcontra => by simp [stEmpty, St.entryAt] at hcontra)
  exact ⟨rfl, by decide, h⟩


/-- Inversion of a successful Except bind. -/
theorem exc_ok_of_bind {α β : Type} {x : Except String α} {f : α → Except String β}
    {b : β} (h : (x >>= f) = .ok b) : ∃ a, x = .ok a ∧ f a = .ok b := by
  cases x with
  | ok a => exact ⟨a, rfl, by simpa using h⟩
  | error e => simp at h

/-- A heading section adds no table. -/
theorem buildHeadingSection_tables {sec : Jval} {d d' : WordDoc}
    (h : buildHeadingSection sec d = .ok d') : d'.tables = d.tables := by
  unfold buildHeadingSection at h
  cases hc : headingSectionText sec with
  | error e => rw [hc] at h; simp at h
  | ok t =>
    rw [hc] at h
    simp at h
    rw [← h]

/-- A paragraph section adds no table. -/
theorem buildParagraphSection_tables {sec : Jval} {d d' : WordDoc}
    (h : buildParagraphSection sec d = .ok d') : d'.tables = d.tables := by
  unfold buildParagraphSection at h
  cases hc : paragraphSectionText sec with
  | error e => rw [hc] at h; simp at h
  | ok t =>
    rw [hc] at h
    simp at h
    rw [← h]

/-- A list section adds no table. -/
theorem buildListSection_tables {sec : Jval} {d d' : WordDoc}
    (h : buildListSection sec d = .ok d') : d'.tables = d.tables := by
  unfold buildListSection at h
  cases hc : listSectionTexts sec with
  | error e => rw [hc] at h; simp at h
  | ok t =>
    rw [hc] at h
    simp at h
    rw [← h]

/-- A table section only appends tables. -/
theorem buildTableSection_tables {lib : Lib} {sec : Jval} {d d' : WordDoc}
    (h : buildTableSection lib sec d = .ok d') :
    ∃ ts, d'.tables = d.tables ++ ts := by
  unfold buildTableSection at h
  cases hc : tableSectionTbl lib sec with
  | error e => rw [hc] at h; simp at h
  | ok res =>
    rw [hc] at h
    simp only [exc_bind_ok] at h
    cases res with
    | none =>
      simp at h
      exact ⟨[], by rw [← h]; simp⟩
    | some tbl =>
      simp at h
      exact ⟨[tbl], by rw [← h]⟩

/-- A key_value_table section only appends tables. -/
theorem buildKVTableSection_tables {lib : Lib} {sec : Jval} {d d' : WordDoc}
    (h : buildKVTableSection lib sec d = .ok d') :
    ∃ ts, d'.tables = d.tables ++ ts := by
  unfold buildKVTableSection at h
  cases hc : kvTableSectionTbl lib sec with
  | error e => rw [hc] at h; simp at h
  | ok res =>
    rw [hc] at h
    simp only [exc_bind_ok] at h
    cases res with
    | none =>
      simp at h
      exact ⟨[], by rw [← h]; simp⟩
    | some tbl =>
      simp at h
      exact ⟨[tbl], by rw [← h]⟩

/-- Every section builder only appends tables. -/
theorem buildSection_tables {lib : Lib} {sec : Jval} {d d' : WordDoc}
    (h : buildSection lib d sec = .ok d') :
    ∃ ts, d'.tables = d.tables ++ ts := by
  unfold buildSection at h
  cases hty : dataGetN sec "type" with
  | error e => rw [hty] at h; simp at h
  | ok ty =>
    rw [hty] at h
    simp only [exc_bind_ok] at h
    cases ty with
    | s str =>
      by_cases h1 : str = "heading"
      · subst h1; exact ⟨[], by rw [buildHeadingSection_tables h]; simp⟩
      · by_cases h2 : str = "paragraph"
        · subst h2; exact ⟨[], by rw [buildParagraphSection_tables h]; simp⟩
        · by_cases h3 : str = "bullet_list"
          · subst h3; exact ⟨[], by rw [buildListSection_tables h]; simp⟩
          · by_cases h4 : str = "numbered_list"
            · subst h4; exact ⟨[], by rw [buildListSection_tables h]; simp⟩
            · by_cases h5 : str = "table"
              · subst h5; exact buildTableSection_tables h
              · by_cases h6 : str = "key_value_table"
                · subst h6; exact buildKVTableSection_tables h
                · by_cases h7 : str = "page_break"
                  · subst h7
                    simp at h
                    exact ⟨[], by rw [← h]; simp⟩
                  · by_cases h8 : str = "spacer"
                    · subst h8
                      simp at h
                      exact ⟨[], by rw [← h]; simp⟩
                    · simp [h1, h2, h3, h4, h5, h6, h7, h8] at h
                      exact ⟨[], by rw [← h]; simp⟩
    | null => simp at h; exact ⟨[], by rw [← h]; simp⟩
    | b x => simp at h; exact ⟨[], by rw [← h]; simp⟩
    | i n => simp at h; exact ⟨[], by rw [← h]; simp⟩
    | arr xs => simp at h; exact ⟨[], by rw [← h]; simp⟩
    | obj kvs => simp at h; exact ⟨[], by rw [← h]; simp⟩

/-- The section fold only appends tables. -/
theorem exFoldM_buildSection_tables {lib : Lib} (secs : List Jval) (d d' : WordDoc)
    (h : exFoldM (buildSection lib) d secs = .ok d') :
    ∃ ts, d'.tables = d.tables ++ ts := by
  induction secs generalizing d with
  | nil =>
    unfold exFoldM at h
    injection h with h
    exact ⟨[], by rw [← h]; simp⟩
  | cons s rest ih =>
    unfold exFoldM at h
    obtain ⟨dmid, hmid, h⟩ := exc_ok_of_bind h
    obtain ⟨ts1, hts1⟩ := buildSection_tables hmid
    obtain ⟨ts2, hts2⟩ := ih dmid h
    exact ⟨ts1 ++ ts2, by rw [hts2, hts1, List.append_assoc]⟩

/-- Row-height application leaves the grid alone. -/
theorem applyRowHeights_grid (t : Tbl) (rh : Option Int) :
    (applyRowHeights t rh).grid = t.grid := by
  cases rh <;> rfl

/-- The grid setter strips every per-cell w:tcW width. -/
theorem setTableGrid_tcW (t : Tbl) (l : List Jval) :
    ∀ r ∈ (setTableGrid t l).rows, ∀ c ∈ r.cells, c.tcW = none := by
  intro r hr c hc
  unfold setTableGrid at hr
  simp only [List.mem_map] at hr
  obtain ⟨r0, -, hr0⟩ := hr
  rw [← hr0] at hc
  simp only [List.mem_map] at hc
  obtain ⟨c0, -, hc0⟩ := hc
  rw [← hc0]

/-- Row-height application preserves stripped cell widths. -/
theorem applyRowHeights_tcW (t : Tbl) (rh : Option Int)
    (h : ∀ r ∈ t.rows, ∀ c ∈ r.cells, c.tcW = none) :
    ∀ r ∈ (applyRowHeights t rh).rows, ∀ c ∈ r.cells, c.tcW = none := by
  cases rh with
  | none => exact h
  | some hh =>
    intro r hr c hc
    unfold applyRowHeights at hr
    simp only [List.mem_map] at hr
    obtain ⟨r0, hr0mem, hr0⟩ := hr
    rw [← hr0] at hc
    exact h r0 hr0mem c hc

/-- Widths stored as str(width) of JSON integers read back through int(). -/
theorem map_widthAttr_int (ws : List Int) :
    List.map widthAttr (ws.map Jval.i) = List.map WAttr.num ws := by
  rw [List.map_map]
  rfl

/-- A non-empty col_widths list triggers the grid setter. -/
theorem tableGridStep_arr (tbl0 : Tbl) (l : List Jval) (hl : l ≠ []) :
    tableGridStep tbl0 (.arr l) = .ok (setTableGrid tbl0 l) := by
  unfold tableGridStep
  have ht : (Jval.arr l).truthy = true := by simp [Jval.truthy, hl]
  rw [if_pos ht]
  rfl

/-- A successful table section with non-empty headers and an integer
col_widths list builds its table: the w:tblGrid carries exactly those
widths and every cell w:tcW has been stripped. -/
theorem tableSectionTbl_props {lib : Lib} {sec : Jval} {res : Option Tbl}
    {hs : List Jval} {ws : List Int}
    (hheaders : dataGet sec "headers" (.arr []) = .ok (.arr hs)) (hhs : hs ≠ [])
    (hcw : dataGetN sec "col_widths" = .ok (.arr (ws.map Jval.i))) (hws : ws ≠ [])
    (h : tableSectionTbl lib sec = .ok res) :
    ∃ tbl, res = some tbl ∧
      tbl.grid = some (List.map WAttr.num ws) ∧
      ∀ r ∈ tbl.rows, ∀ c ∈ r.cells, c.tcW = none := by
  unfold tableSectionTbl at h
  rw [hheaders] at h
  simp only [exc_bind_ok] at h
  cases h2 : dataGet sec "rows" (.arr []) with
  | error e => rw [h2] at h; simp at h
  | ok rows =>
  rw [h2] at h
  simp only [exc_bind_ok] at h
  cases h3 : dataGet sec "header_bg_color" (.s "1F4E79") with
  | error e => rw [h3] at h; simp at h
  | ok header_bg =>
  rw [h3] at h
  simp only [exc_bind_ok] at h
  cases h4 : dataGet sec "header_text_color" (.s "FFFFFF") with
  | error e => rw [h4] at h; simp at h
  | ok header_text =>
  rw [h4] at h
  simp only [exc_bind_ok] at h
  cases h5 : dataGet sec "alt_row_color" (.s "F2F2F2") with
  | error e => rw [h5] at h; simp at h
  | ok alt_row =>
  rw [h5] at h
  simp only [exc_bind_ok] at h
  cases h6 : dataGetN sec "row_height" with
  | error e => rw [h6] at h; simp at h
  | ok row_height =>
  rw [h6] at h
  simp only [exc_bind_ok] at h
  rw [hcw] at h
  simp only [exc_bind_ok] at h
  have htr : (Jval.arr hs).truthy = true := by
    simp [Jval.truthy, hhs]
  rw [htr] at h
  simp only [Bool.not_true, Bool.false_eq_true, if_false] at h
  rw [show pyLen (Jval.arr hs) = Except.ok hs.length from rfl] at h
  simp only [exc_bind_ok] at h
  cases h7 : pyLen rows with
  | error e => rw [h7] at h; simp at h
  | ok nData =>
  rw [h7] at h
  simp only [exc_bind_ok] at h
  rw [tableGridStep_arr _ _ (fun hc0 => hws (List.map_eq_nil.mp hc0))] at h
  simp only [exc_bind_ok] at h
  cases h8 : rowHeightStep row_height with
  | error e => rw [h8] at h; simp at h
  | ok rh =>
  rw [h8] at h
  simp only [exc_bind_ok] at h
  cases h9 : tableColorChecks header_bg header_text alt_row rows hs.length with
  | error e => rw [h9] at h; simp at h
  | ok u9 =>
  rw [h9] at h
  simp only [exc_bind_ok, exc_pure_eq] at h
  injection h with h
  refine ⟨applyRowHeights (setTableGrid (freshTable lib (1 + nData) hs.length)
    (List.map Jval.i ws)) rh, h.symm, ?_, ?_⟩
  · rw [applyRowHeights_grid]
    unfold setTableGrid
    simp only [map_widthAttr_int]
  · exact applyRowHeights_tcW _ rh (setTableGrid_tcW _ _)


/-- Every element of a successful exMapM result comes from some input. -/
theorem exMapM_ok_mem {α β : Type} (f : α → Except String β) (l : List α)
    (ys : List β) (h : exMapM f l = .ok ys) :
    ∀ y ∈ ys, ∃ x ∈ l, f x = .ok y := by
  induction l generalizing ys with
  | nil =>
    unfold exMapM at h
    injection h with h
    intro y hy
    rw [← h] at hy
    simp at hy
  | cons a rest ih =>
    unfold exMapM at h
    cases hf : f a with
    | error e => rw [hf] at h; simp at h
    | ok b =>
      rw [hf] at h
      simp only [exc_bind_ok] at h
      cases hrest : exMapM f rest with
      | error e => rw [hrest] at h; simp at h
      | ok bs =>
        rw [hrest] at h
        simp at h
        subst h
        intro y hy
        rcases List.mem_cons.mp hy with h1 | h1
        · exact ⟨a, List.mem_cons_self _ _, by rw [h1]; exact hf⟩
        · obtain ⟨x, hx, hfx⟩ := ih bs hrest y h1
          exact ⟨x, List.mem_cons_of_mem _ hx, hfx⟩

/-- The payload of an enumFrom member is a member. -/
theorem mem_of_mem_enumFrom {α : Type} {l : List α} {n : Nat} {p : Nat × α}
    (h : p ∈ List.enumFrom n l) : p.2 ∈ l := by
  induction l generalizing n with
  | nil => simp at h
  | cons a rest ih =>
    simp only [List.enumFrom, List.mem_cons] at h
    cases h with
    | inl h => rw [h]; exact List.mem_cons_self _ _
    | inr h => exact List.mem_cons_of_mem _ (ih h)

/-- The payload of an enum member is a member. -/
theorem mem_of_mem_enum {α : Type} {l : List α} {p : Nat × α}
    (h : p ∈ l.enum) : p.2 ∈ l := mem_of_mem_enumFrom h

/-- Indexing just past a prefix finds the distinguished element. -/
theorem get_append_length {α : Type} (l1 l2 : List α) (x : α) :
    (l1 ++ x :: l2).get? l1.length = some x := by
  induction l1 with
  | nil => rfl
  | cons a rest ih => simpa using ih

/-- When every cell of the table lacks a w:tcW, the per-table analysis
reports every cell width as null. -/
theorem readTableInfo_cells_none {k : Nat} {tbl : Tbl} {ti : TableInfo}
    (h : readTableInfo k tbl = .ok ti)
    (hcells : ∀ r ∈ tbl.rows, ∀ c ∈ r.cells, c.tcW = none) :
    ∀ row ∈ ti.cell_widths, ∀ x ∈ row, x = none := by
  have main : ∀ rowRes, exMapM readRowPair tbl.rows.enum = .ok rowRes →
      ∀ row ∈ rowRes.map Prod.snd, ∀ x ∈ row, x = none := by
    intro rowRes hrows row hrow x hx
    obtain ⟨pair, hpmem, hpsnd⟩ := List.mem_map.mp hrow
    obtain ⟨jr, hjrmem, hjr⟩ := exMapM_ok_mem readRowPair _ rowRes hrows pair hpmem
    unfold readRowPair at hjr
    cases hri : readRowInfo jr.1 jr.2 with
    | error e => rw [hri] at hjr; simp at hjr
    | ok ri =>
      rw [hri] at hjr
      simp only [exc_bind_ok] at hjr
      cases hcw : exMapM readCellW jr.2.cells with
      | error e => rw [hcw] at hjr; simp at hjr
      | ok cw =>
        rw [hcw] at hjr
        simp at hjr
        have hrowcw : row = cw := by rw [← hpsnd, ← hjr]
        subst hrowcw
        obtain ⟨c, hcmem, hcx⟩ := exMapM_ok_mem readCellW _ row hcw x hx
        have htcw : c.tcW = none := hcells jr.2 (mem_of_mem_enum hjrmem) c hcmem
        unfold readCellW at hcx
        rw [htcw] at hcx
        injection hcx with hcx
        exact hcx.symm
  unfold readTableInfo at h
  cases hg : tbl.grid with
  | none =>
    rw [hg] at h
    simp only [M_pure_apply, exc_pure_eq, exc_bind_ok] at h
    cases hrows : exMapM readRowPair tbl.rows.enum with
    | error e => rw [hrows] at h; simp at h
    | ok rowRes =>
      rw [hrows] at h
      simp at h
      subst h
      exact main rowRes hrows
  | some g =>
    rw [hg] at h
    simp only [exc_pure_eq, exc_bind_ok] at h
    cases hgw : exMapM readWAttr g with
    | error e => rw [hgw] at h; simp at h
    | ok gws =>
      rw [hgw] at h
      simp only [exc_bind_ok, exc_pure_eq] at h
      cases hrows : exMapM readRowPair tbl.rows.enum with
      | error e => rw [hrows] at h; simp at h
      | ok rowRes =>
        rw [hrows] at h
        simp at h
        subst h
        exact main rowRes hrows

/-- Dispatch: a section whose type is "table" runs the table builder. -/
theorem buildSection_table {lib : Lib} {sec : Jval} {d d' : WordDoc}
    (hty : dataGetN sec "type" = .ok (.s "table"))
    (h : buildSection lib d sec = .ok d') :
    buildTableSection lib sec d = .ok d' := by
  unfold buildSection at h
  rw [hty] at h
  simpa using h

/-- A built table section appends exactly its table. -/
theorem buildTableSection_some {lib : Lib} {sec : Jval} {d d' : WordDoc} {tbl : Tbl}
    (htbl : tableSectionTbl lib sec = .ok (some tbl))
    (h : buildTableSection lib sec d = .ok d') :
    d'.tables = d.tables ++ [tbl] := by
  unfold buildTableSection at h
  rw [htbl] at h
  simp at h
  rw [← h]

/-- Inversion of the document assembly: a successful build is the section
fold from a document with no tables. -/
theorem buildFormattedDoc_fold {lib : Lib} {data : Jval} {doc : WordDoc}
    {secsJ : Jval} {secs : List Jval}
    (hsecs : dataGet data "sections" (.arr []) = .ok secsJ)
    (hiter : pyIter secsJ = .ok secs)
    (hbuild : buildFormattedDoc lib data = .ok doc) :
    ∃ d0 : WordDoc, d0.tables = [] ∧ exFoldM (buildSection lib) d0 secs = .ok doc := by
  unfold buildFormattedDoc at hbuild
  cases c1 : dataGetN data "header" with
  | error e => rw [c1] at hbuild; simp at hbuild
  | ok hdr =>
  rw [c1] at hbuild
  simp only [exc_bind_ok] at hbuild
  cases c2 : headerText hdr with
  | error e => rw [c2] at hbuild; simp at hbuild
  | ok hdrText =>
  rw [c2] at hbuild
  simp only [exc_bind_ok] at hbuild
  cases c3 : dataGetN data "footer" with
  | error e => rw [c3] at hbuild; simp at hbuild
  | ok ftr =>
  rw [c3] at hbuild
  simp only [exc_bind_ok] at hbuild
  cases c4 : headerText ftr with
  | error e => rw [c4] at hbuild; simp at hbuild
  | ok ftrText =>
  rw [c4] at hbuild
  simp only [exc_bind_ok] at hbuild
  cases c5 : dataGetN data "title" with
  | error e => rw [c5] at hbuild; simp at hbuild
  | ok ttl =>
  rw [c5] at hbuild
  simp only [exc_bind_ok] at hbuild
  cases c6 : headerText ttl with
  | error e => rw [c6] at hbuild; simp at hbuild
  | ok ttlText =>
  rw [c6] at hbuild
  simp only [exc_bind_ok] at hbuild
  cases c7 : dataGetN data "subtitle" with
  | error e => rw [c7] at hbuild; simp at hbuild
  | ok sub =>
  rw [c7] at hbuild
  simp only [exc_bind_ok] at hbuild
  cases c8 : headerText sub with
  | error e => rw [c8] at hbuild; simp at hbuild
  | ok subText =>
  rw [c8] at hbuild
  simp only [exc_bind_ok] at hbuild
  rw [hsecs] at hbuild
  simp only [exc_bind_ok] at hbuild
  rw [hiter] at hbuild
  simp only [exc_bind_ok] at hbuild
  exact ⟨_, rfl, hbuild⟩


/-- A parseable document_data whose assembly succeeds is written at a
writable target path, and the call reports success. -/
theorem createFormatted_ok {env : Env} {filepath dd : String} {st : St}
    {data : Jval} {doc : WordDoc}
    (hparse : env.jsonParse dd = some data)
    (hbuild : buildFormattedDoc env.lib data = .ok doc)
    (hdirname : ∀ fc, st.entryAt (dirnameOf filepath) ≠ some (.file fc))
    (hne : dirnameOf filepath ≠ filepath)
    (htarget : st.entryAt filepath ≠ some Entry.dir) :
    (create_formatted_word_document env filepath dd st).1.success = true ∧
    (create_formatted_word_document env filepath dd st).1.filepath = some filepath ∧
    (create_formatted_word_document env filepath dd st).2.entryAt filepath =
      some (.file (.docx doc)) := by
  obtain ⟨st1, hmk, htr, hpres⟩ := osMakedirs_no_file (dirnameOf filepath) st hdirname
  have hp1 : st1.entryAt filepath = st.entryAt filepath :=
    hpres filepath (Ne.symm hne)
  have hsv := saveFile_not_dir filepath (.docx doc) st1
    (by rw [hp1]; exact htarget)
  unfold create_formatted_word_document wrap create_formatted_word_document_body
  rw [hparse]
  simp only [M_bind_apply, M_liftE_apply, M_pure_apply]
  rw [hbuild]
  simp only [M_bind_apply, M_pure_apply, hmk, hsv]
  refine ⟨by trivial, by trivial, ?_⟩
  exact entryAt_fsSet_same st1.fs st1.trash filepath _


/-- C6: round-trip of grid widths. For every document_data whose sections
include a "table" section with non-empty headers and a col_widths list
[w1..wn] of JSON integers, create_formatted_word_document writes those
widths into the w:tblGrid of the table it builds and strips every
per-cell w:tcW, so read_word_document_structure on the produced file
reports for that table column_widths equal to [w1..wn] with
column_widths_source = "tblGrid" and all cell_widths entries null. -/
theorem claim_C6_grid_roundtrip (env : Env) (filepath document_data : String)
    (st : St) (data secsJ sec : Jval) (pre post : List Jval)
    (hs : List Jval) (ws : List Int) (doc : WordDoc) (tis : List TableInfo)
    (hparse : env.jsonParse document_data = some data)
    (hsecs : dataGet data "sections" (.arr []) = .ok secsJ)
    (hiter : pyIter secsJ = .ok (pre ++ sec :: post))
    (hty : dataGetN sec "type" = .ok (.s "table"))
    (hheaders : dataGet sec "headers" (.arr []) = .ok (.arr hs)) (hhs : hs ≠ [])
    (hcw : dataGetN sec "col_widths" = .ok (.arr (ws.map Jval.i))) (hws : ws ≠ [])
    (hbuild : buildFormattedDoc env.lib data = .ok doc)
    (hread : exMapM (fun it => readTableInfo it.1 it.2) doc.tables.enum = .ok tis)
    (hdirname : ∀ fc, st.entryAt (dirnameOf filepath) ≠ some (.file fc))
    (hne : dirnameOf filepath ≠ filepath)
    (htarget : st.entryAt filepath ≠ some Entry.dir) :
    ∃ j ti,
      (create_formatted_word_document env filepath document_data st).1.success = true ∧
      (create_formatted_word_document env filepath document_data st).2.entryAt filepath =
        some (.file (.docx doc)) ∧
      (read_word_document_structure filepath
        (create_formatted_word_document env filepath document_data st).2).1.tables =
        some tis ∧
      tis.get? j = some ti ∧
      ti.column_widths = ws ∧
      ti.column_widths_source = some "tblGrid" ∧
      ∀ row ∈ ti.cell_widths, ∀ x ∈ row, x = none := by
  obtain ⟨d0, hd0, hfold⟩ := buildFormattedDoc_fold hsecs hiter hbuild
  rw [exFoldM_append] at hfold
  cases hpre : exFoldM (buildSection env.lib) d0 pre with
  | error e => rw [hpre] at hfold; simp at hfold
  | ok dpre =>
  rw [hpre] at hfold
  simp only [] at hfold
  unfold exFoldM at hfold
  obtain ⟨dmid, hmid, hpost⟩ := exc_ok_of_bind hfold
  have hbt : buildTableSection env.lib sec dpre = .ok dmid := buildSection_table hty hmid
  cases htbl : tableSectionTbl env.lib sec with
  | error e =>
    unfold buildTableSection at hbt
    rw [htbl] at hbt
    simp at hbt
  | ok res =>
  obtain ⟨tbl, hres, hgrid, hcellsW⟩ := tableSectionTbl_props hheaders hhs hcw hws htbl
  subst hres
  have hmidtbl : dmid.tables = dpre.tables ++ [tbl] := buildTableSection_some htbl hbt
  obtain ⟨ts1, hts1⟩ := exFoldM_buildSection_tables pre d0 dpre hpre
  obtain ⟨ts2, hts2⟩ := exFoldM_buildSection_tables post dmid doc hpost
  have hdoct : doc.tables = ts1 ++ tbl :: ts2 := by
    rw [hts2, hmidtbl, hts1, hd0]
    simp
  have hget : doc.tables.get? ts1.length = some tbl := by
    rw [hdoct]
    exact get_append_length ts1 ts2 tbl
  have hegett : doc.tables.enum.get? ts1.length = some (ts1.length, tbl) := by
    rw [enum_get?, hget]
    rfl
  obtain ⟨ti, hti, hred⟩ :=
    exMapM_ok_get (fun it => readTableInfo it.1 it.2) doc.tables.enum tis hread
      ts1.length (ts1.length, tbl) hegett
  obtain ⟨-, -, hwid⟩ := readTableInfo_ok_elim ts1.length tbl ti hred
  obtain ⟨hcw1, hcw2⟩ := hwid ws hgrid
  have hcn := readTableInfo_cells_none hred hcellsW
  obtain ⟨hsucc, hfp, hentry⟩ := createFormatted_ok hparse hbuild hdirname hne htarget
  have hreadres := read_ok filepath _ doc tis hentry hread
  refine ⟨ts1.length, ti, hsucc, hentry, ?_, hti, hcw1, hcw2, hcn⟩
  rw [hreadres]

/-- C6 witness: the concrete one-table document round-trips widths
3000 and 4000 with source "tblGrid" and null cell widths. -/
theorem claim_C6_witness :
    envC6.jsonParse "DOC" = some docJvC6 ∧
    dataGetN tableSecC6 "col_widths" = .ok (.arr ([3000, 4000].map Jval.i)) ∧
    (∃ j ti,
      (create_formatted_word_document envC6 "/f.docx" "DOC" stEmpty).1.success = true ∧
      (create_formatted_word_document envC6 "/f.docx" "DOC" stEmpty).2.entryAt "/f.docx" =
        some (.file (.docx docC6)) ∧
      (read_word_document_structure "/f.docx"
        (create_formatted_word_document envC6 "/f.docx" "DOC" stEmpty).2).1.tables =
        some tisC6 ∧
      tisC6.get? j = some ti ∧
      ti.column_widths = [3000, 4000] ∧
      ti.column_widths_source = some "tblGrid" ∧
      ∀ row ∈ ti.cell_widths, ∀ x ∈ row, x = none) := by
  refine ⟨rfl, rfl, ?_⟩
  exact claim_C6_grid_roundtrip envC6 "/f.docx" "DOC" stEmpty docJvC6
    (.arr [tableSecC6]) tableSecC6 [] [] [.s "A", .s "B"] [3000, 4000] docC6 tisC6
    rfl rfl rfl rfl rfl (by simp) rfl (by simp)
    rfl rfl
    (fun fc hcontra => by simp [stEmpty, St.entryAt] at hcontra)
    (by decide)
    (fun hcontra => by simp [stEmpty, St.entryAt] at hcontra)

end DocMcp
